import Mathlib

/-!
# Ray tracer GPU orchestration layer: model and verified properties

A shallow embedding of `src/util.cpp` (shader programs, texture wrapper) and
`src/ray_tracer.cpp` (the `RayTracer` orchestrator).

* `std::string` is `List Char`; a `const char*` handed to OpenGL is the prefix
  before the first NUL character (`c_str`).
* Every OpenGL call that changes GL state is recorded, in issue order, in
  `World.cmds`.  Calls that only read GL state (`glGetShaderiv`,
  `glGetAttribLocation`, ...) are answered by a `Driver` and are not recorded.
* A C++ exception is an `Except.error`; the world reached when the exception
  leaves the function (destructors of completed sub-objects included) is
  returned next to it.  The message of an exception is what `what()` returns, a
  C string: the prefix of the constructor argument before its first NUL.
* `GLfloat` literals of the program (`-1.0f`, `1.5`, ...) are exactly
  representable and are kept as rationals.
-/

namespace OglRayTracer

/-! ## OpenGL vocabulary -/

abbrev GLuint := Nat
abbrev GLint := Int
abbrev GLfloat := ℚ

/-- The symbolic OpenGL enumerants the program uses. -/
inductive GLenum
  | GL_VERTEX_SHADER | GL_FRAGMENT_SHADER | GL_COMPUTE_SHADER
  | GL_TEXTURE_2D | GL_TEXTURE0
  | GL_TEXTURE_WRAP_S | GL_TEXTURE_WRAP_T | GL_TEXTURE_MAG_FILTER | GL_TEXTURE_MIN_FILTER
  | GL_CLAMP_TO_EDGE | GL_LINEAR
  | GL_RGBA16F | GL_RGBA | GL_FLOAT | GL_WRITE_ONLY
  | GL_ARRAY_BUFFER | GL_STATIC_DRAW | GL_TRIANGLE_STRIP
  deriving DecidableEq, Repr

open GLenum

/-- Bit of `glClear`: value of `GL_DEPTH_BUFFER_BIT` in the OpenGL headers. -/
def GL_DEPTH_BUFFER_BIT : Nat := 0x00000100
/-- Bit of `glClear`: value of `GL_COLOR_BUFFER_BIT` in the OpenGL headers. -/
def GL_COLOR_BUFFER_BIT : Nat := 0x00004000
/-- Bit of `glMemoryBarrier`: image load/store/atomic accesses issued after the
barrier reflect shader writes made before it (OpenGL 4.3 core, value 0x20). -/
def GL_SHADER_IMAGE_ACCESS_BARRIER_BIT : Nat := 0x00000020
/-- Bit of `glMemoryBarrier`: texture fetches from shaders issued after the
barrier reflect shader writes made before it (OpenGL 4.3 core, value 0x08). -/
def GL_TEXTURE_FETCH_BARRIER_BIT : Nat := 0x00000008

/-- Conversion `GLint -> GLuint` of C++ (modulo 2^32). -/
def toGLuint (x : GLint) : GLuint := (x % 4294967296).toNat

/-- Conversion `GLuint -> GLint` of C++ (two's complement, 32 bit). -/
def toGLint (n : GLuint) : GLint :=
  if n % 4294967296 < 2147483648 then ((n % 4294967296 : Nat) : Int)
  else ((n % 4294967296 : Nat) : Int) - 4294967296

/-- The state-changing OpenGL calls issued by the program, with their arguments.
A call that returns a fresh object name carries that name.  `glGenTextures` is
part of the vocabulary although no function of the program issues it. -/
inductive Cmd
  | glCreateProgram (program : GLuint)
  | glDeleteProgram (program : GLuint)
  | glUseProgram (program : GLuint)
  | glCreateShader (type : GLenum) (res : GLuint)
  | glShaderSource (shader : GLuint) (sources : List (List Char))
  | glCompileShader (shader : GLuint)
  | glDeleteShader (shader : GLuint)
  | glAttachShader (program shader : GLuint)
  | glLinkProgram (program : GLuint)
  | glGenTextures (texture : GLuint)
  | glDeleteTextures (texture : GLuint)
  | glBindTexture (target : GLenum) (texture : GLuint)
  | glActiveTexture (unit : GLenum)
  | glTexParameteri (target pname param : GLenum)
  | glTexImage2D (target : GLenum) (level : Int) (internalformat : GLenum)
      (width height : GLuint) (border : Int) (format type : GLenum)
  | glBindImageTexture (unit texture : GLuint) (level : Int) (layered : Bool)
      (layer : Int) (access format : GLenum)
  | glGenVertexArrays (vao : GLuint)
  | glBindVertexArray (vao : GLuint)
  | glDeleteVertexArrays (vao : GLuint)
  | glGenBuffers (buffer : GLuint)
  | glBindBuffer (target : GLenum) (buffer : GLuint)
  | glBufferData (target : GLenum) (size : Nat) (data : List GLfloat) (usage : GLenum)
  | glDeleteBuffers (buffer : GLuint)
  | glVertexAttribPointer (index : GLuint) (size : Int) (type : GLenum)
      (normalized : Bool) (stride : Nat) (pointer : Nat)
  | glEnableVertexAttribArray (index : GLuint)
  | glClearColor (r g b a : GLfloat)
  | glClear (mask : Nat)
  | glUniformMatrix4fv (location : GLint) (count : Int) (transpose : Bool)
      (value : List GLfloat)
  | glUniform1i (location : GLint) (v0 : Int)
  | glUniform1f (location : GLint) (v0 : GLfloat)
  | glUniform2fv (location : GLint) (count : Int) (value : List GLfloat)
  | glUniform3fv (location : GLint) (count : Int) (value : List GLfloat)
  | glDrawArrays (mode : GLenum) (first : Int) (count : Int)
  | glDispatchCompute (x y z : GLuint)
  | glMemoryBarrier (barriers : Nat)
  deriving DecidableEq

/-- What the info-log queries of `print_log` yield for an object.
`text s`: `GL_INFO_LOG_LENGTH` is positive and the buffer receives the
NUL-terminated log `s`.  `absent garbage`: `GL_INFO_LOG_LENGTH` is 0, the C++
allocates `new char[0]`, nothing is written to it, and reading it as a C string
is undefined behaviour; `garbage` stands for the characters that read yields. -/
inductive InfoLog
  | text (s : List Char)
  | absent (garbage : List Char)
  deriving DecidableEq

/-- What `print_log` learns from the GL about the object it is given: whether
`glIsShader` holds, else whether `glIsProgram` holds, and the info log. -/
inductive ObjectLog
  | shader (log : InfoLog)
  | program (log : InfoLog)
  | neither
  deriving DecidableEq

/-- The GL implementation, as far as the program observes it. -/
structure Driver where
  /-- Result of `glCompileShader`: `GL_COMPILE_STATUS` and what `print_log` would
  learn about the shader, for a shader of the given type whose source strings
  concatenate to the given text. -/
  compile : GLenum → List Char → Bool × ObjectLog
  /-- Result of `glLinkProgram`: `GL_LINK_STATUS` and what `print_log` would learn
  about the program, for a program with the given stages (type and source)
  attached. -/
  link : List (GLenum × List Char) → Bool × ObjectLog
  /-- Answer of `glGetAttribLocation`. -/
  glGetAttribLocation : GLuint → List Char → GLint
  /-- Answer of `glGetUniformLocation`. -/
  glGetUniformLocation : GLuint → List Char → GLint

/-- The file system: the text of a readable file, `none` for a file that is
missing or cannot be opened. -/
abbrev FileSystem := List Char → Option (List Char)

/-- What the program has done to the outside so far. -/
structure World where
  /-- OpenGL commands issued, oldest first. -/
  cmds : List Cmd
  /-- Next unused GL object name. -/
  nextName : GLuint
  /-- Text written to `std::cerr`. -/
  cerr : List Char
  deriving DecidableEq

/-- Record one GL command. -/
def emit (c : Cmd) (w : World) : World := { w with cmds := w.cmds ++ [c] }

/-- Obtain a fresh GL object name (`glCreateProgram`, `glCreateShader`,
`glGen*`): object creation is taken to succeed, and one counter serves all kinds
of object. -/
def fresh (w : World) : GLuint × World := (w.nextName, { w with nextName := w.nextName + 1 })

/-- The characters a C API reads from `s.c_str()`: those before the first NUL. -/
def c_str (s : List Char) : List Char := s.takeWhile (fun c => c ≠ Char.ofNat 0)

/-- The exception class of `util.h`: one wrapper class around
`std::runtime_error`, constructed from a `std::string`. -/
structure OglException where
  what_arg : List Char
  deriving DecidableEq

/-- Member `what()` of the exception: the message as a C string, which ends at
the first NUL of the constructor argument. -/
def OglException.what (e : OglException) : List Char := c_str e.what_arg

/-! ## Reading a shader file (`ShaderProgram::read_file`) -/

/-- Exception `std::ios_base::failure`. -/
structure ios_failure where
  what : List Char

/-- An input file stream: whether a file is open, its unread characters, the
fail bit, and whether the fail bit is in the exception mask. -/
structure ifstream where
  is_open : Bool
  rest : List Char
  failbit : Bool
  exceptions : Bool

/-- Construction `std::ifstream infile(filename)`: the exception mask of a new
stream is `goodbit`; a file that cannot be opened only sets the fail bit. -/
def ifstream_ctor (fs : FileSystem) (filename : List Char) : ifstream :=
  match fs (c_str filename) with
  | some text => { is_open := true, rest := text, failbit := false, exceptions := false }
  | none => { is_open := false, rest := [], failbit := true, exceptions := false }

/-- Member `setstate(failbit)`: throws only when the exception mask asks for it. -/
def ifstream.setstate_failbit (s : ifstream) : Except ios_failure ifstream :=
  if s.exceptions then .error ⟨"basic_ios::clear".toList⟩
  else .ok { s with failbit := true }

/-- Member `close()`: closing a stream without an open file sets the fail bit. -/
def ifstream.close (s : ifstream) : Except ios_failure ifstream :=
  if s.is_open then .ok { s with is_open := false }
  else s.setstate_failbit

/-- Character extraction of `std::getline`: characters up to the first newline
(which is consumed and not stored) or to the end of the input; `none` when no
character at all can be extracted. -/
def extract_line : List Char → Option (List Char × List Char)
  | [] => none
  | c :: cs =>
    if c = '\n' then some ([], cs)
    else match extract_line cs with
      | none => some ([c], [])
      | some (line, rest) => some (c :: line, rest)

/-- Call `std::getline(infile, line)`: the line read when the stream is still
good afterwards, `none` when the fail bit is set. -/
def std_getline (s : ifstream) : Except ios_failure (Option (List Char) × ifstream) :=
  if s.failbit then
    match s.setstate_failbit with
    | .error e => .error e
    | .ok s1 => .ok (none, s1)
  else
    match extract_line s.rest with
    | none =>
      match s.setstate_failbit with
      | .error e => .error e
      | .ok s1 => .ok (none, s1)
    | some (line, rest) => .ok (some line, { s with rest := rest })

/-- The loop `while (std::getline(infile, line)) buf << line << std::endl;`:
the buffer, and the stream after the loop or the exception that ended it.  Every
successful `getline` consumes at least one character, so a bound of
`rest.length + 1` iterations is never reached (`getline_loop_good`,
`getline_loop_failed`). -/
def getline_loop : Nat → ifstream → List Char → List Char × Except ios_failure ifstream
  | 0, s, buf => (buf, .ok s)
  | bound + 1, s, buf =>
    match std_getline s with
    | .error e => (buf, .error e)
    | .ok (none, s1) => (buf, .ok s1)
    | .ok (some line, s1) => getline_loop bound s1 (buf ++ line ++ ['\n'])

/-- The `try` block of `read_file`: open the file, run the loop, close the file.
The result is the buffer and the exception that left the block, if any. -/
def read_file_try (fs : FileSystem) (filename : List Char) : List Char × Option ios_failure :=
  let infile := ifstream_ctor fs filename
  match getline_loop (infile.rest.length + 1) infile [] with
  | (buf, .error e) => (buf, some e)
  | (buf, .ok s) =>
    match s.close with
    | .error e => (buf, some e)
    | .ok _ => (buf, none)

/-! ## Shader programs (`util.cpp`) -/

/-- Class `ShaderProgram`: its only data member is the GL program handle. -/
structure ShaderProgram where
  program : GLuint
  deriving DecidableEq

/-- The version directive `create_shader` puts in front of every stage. -/
def version : List Char := "#version 430\n".toList

/-- The characters `read_file` collects in `buf` for a file name. -/
def file_buffer (fs : FileSystem) (filename : List Char) : List Char :=
  (read_file_try fs filename).1

/-- The text the GL compiler sees for a stage: `glShaderSource(res, 2, sources, NULL)`
concatenates the two NUL-terminated strings of `sources`. -/
def compiler_input (fs : FileSystem) (filename : List Char) : List Char :=
  c_str version ++ c_str (file_buffer fs filename)

namespace ShaderProgram

/-- Constructor `ShaderProgram::ShaderProgram()`. -/
def ctor (w : World) : ShaderProgram × World :=
  (⟨(fresh w).1⟩, emit (.glCreateProgram (fresh w).1) (fresh w).2)

/-- Destructor `ShaderProgram::~ShaderProgram()`. -/
def dtor (self : ShaderProgram) (w : World) : World :=
  emit (.glDeleteProgram self.program) w

/-- Member `ShaderProgram::get_attrib`. -/
def get_attrib (drv : Driver) (self : ShaderProgram) (name : List Char) (w : World) :
    Except OglException GLint × World :=
  let attrib := drv.glGetAttribLocation self.program (c_str name)
  if attrib < 0 then
    (.error ⟨"Could not bind attribute ".toList ++ name⟩, w)
  else (.ok attrib, w)

/-- Member `ShaderProgram::get_uniform`. -/
def get_uniform (drv : Driver) (self : ShaderProgram) (name : List Char) (w : World) :
    Except OglException GLint × World :=
  let uniform := drv.glGetUniformLocation self.program (c_str name)
  if uniform < 0 then
    (.error ⟨"Could not bind attribute ".toList ++ name⟩, w)
  else (.ok uniform, w)

/-- Member `ShaderProgram::useProgram`. -/
def useProgram (self : ShaderProgram) (w : World) : World :=
  emit (.glUseProgram self.program) w

/-- Member `ShaderProgram::read_file`; the `catch` branch writes to `std::cerr`. -/
def read_file (fs : FileSystem) (filename : List Char) (w : World) : List Char × World :=
  match read_file_try fs filename with
  | (buf, none) => (buf, w)
  | (buf, some e) =>
    (buf, { w with cerr := w.cerr ++ "Couldn't read file: ".toList ++ filename ++ ['\n']
                            ++ e.what ++ ['\n'] })

/-- Member `ShaderProgram::print_log`, as the text it appends to `out`.  For a
shader or a program: the content of the buffer of `GL_INFO_LOG_LENGTH` bytes read
as a C string (`std::string log_str(log)`), then `std::endl`; with a zero-length
buffer that content is the undefined `garbage`.  For any other object: the fixed
text of the last branch. -/
def print_log : ObjectLog → List Char
  | .shader (.text s) => c_str s ++ ['\n']
  | .shader (.absent garbage) => c_str garbage ++ ['\n']
  | .program (.text s) => c_str s ++ ['\n']
  | .program (.absent garbage) => c_str garbage ++ ['\n']
  | .neither => "print_log: Not a shader or program".toList ++ ['\n']

/-- Member `ShaderProgram::create_shader`. -/
def create_shader (drv : Driver) (fs : FileSystem) (filename : List Char) (type : GLenum)
    (w : World) : Except OglException GLuint × World :=
  let source := (read_file fs filename w).1
  let w1 := (read_file fs filename w).2
  let sources := [c_str version, c_str source]
  let res := (fresh w1).1
  let w2 := emit (.glCreateShader type res) (fresh w1).2
  let w3 := emit (.glShaderSource res sources) w2
  let w4 := emit (.glCompileShader res) w3
  let compile_ok := (drv.compile type (c_str version ++ c_str source)).1
  if compile_ok = false then
    let error_log := filename ++ ": ".toList ++ print_log (drv.compile type (c_str version ++ c_str source)).2
    (.error ⟨error_log⟩, emit (.glDeleteShader res) w4)
  else (.ok res, w4)

/-- Member `ShaderProgram::linkProgram`; `attached` are the stages attached to the
program at this point (GL state in the C++). -/
def linkProgram (drv : Driver) (self : ShaderProgram) (attached : List (GLenum × List Char))
    (w : World) : Except OglException Unit × World :=
  let w1 := emit (.glLinkProgram self.program) w
  let link_ok := (drv.link attached).1
  if link_ok = false then
    (.error ⟨print_log (drv.link attached).2⟩, emit (.glDeleteProgram self.program) w1)
  else (.ok (), w1)

end ShaderProgram

namespace VFShaderProgram

/-- Constructor `VFShaderProgram::VFShaderProgram(vs_filename, fs_filename)`.  When
the body throws, the completed base sub-object is destroyed (`~ShaderProgram`). -/
def ctor (drv : Driver) (fs : FileSystem) (vs_filename fs_filename : List Char) (w : World) :
    Except OglException ShaderProgram × World :=
  let self := (ShaderProgram.ctor w).1
  let w0 := (ShaderProgram.ctor w).2
  match ShaderProgram.create_shader drv fs vs_filename GL_VERTEX_SHADER w0 with
  | (.error e, w1) => (.error e, self.dtor w1)
  | (.ok vs_shader, w1) =>
    let w2 := emit (.glAttachShader self.program vs_shader) w1
    match ShaderProgram.create_shader drv fs fs_filename GL_FRAGMENT_SHADER w2 with
    | (.error e, w3) => (.error e, self.dtor w3)
    | (.ok fs_shader, w3) =>
      let w4 := emit (.glAttachShader self.program fs_shader) w3
      match self.linkProgram drv
          [(GL_VERTEX_SHADER, compiler_input fs vs_filename),
           (GL_FRAGMENT_SHADER, compiler_input fs fs_filename)] w4 with
      | (.error e, w5) => (.error e, self.dtor w5)
      | (.ok _, w5) => (.ok self, w5)

end VFShaderProgram

namespace ComputeShaderProgram

/-- Constructor `ComputeShaderProgram::ComputeShaderProgram(filename)`. -/
def ctor (drv : Driver) (fs : FileSystem) (filename : List Char) (w : World) :
    Except OglException ShaderProgram × World :=
  let self := (ShaderProgram.ctor w).1
  let w0 := (ShaderProgram.ctor w).2
  match ShaderProgram.create_shader drv fs filename GL_COMPUTE_SHADER w0 with
  | (.error e, w1) => (.error e, self.dtor w1)
  | (.ok compute_shader, w1) =>
    let w2 := emit (.glAttachShader self.program compute_shader) w1
    match self.linkProgram drv [(GL_COMPUTE_SHADER, compiler_input fs filename)] w2 with
    | (.error e, w3) => (.error e, self.dtor w3)
    | (.ok _, w3) => (.ok self, w3)

end ComputeShaderProgram

/-! ## Texture wrapper (`util.cpp`) -/

/-- Class `Texture`: one handle.  The class declares no constructor, so the handle
of a default-initialised `Texture` is whatever its storage held. -/
structure Texture where
  texture : GLuint
  deriving DecidableEq

namespace Texture

/-- Destructor `Texture::~Texture()`. -/
def dtor (self : Texture) (w : World) : World := emit (.glDeleteTextures self.texture) w

/-- Member `Texture::bindTexture`. -/
def bindTexture (self : Texture) (w : World) : World :=
  emit (.glBindTexture GL_TEXTURE_2D self.texture) w

/-- Member `Texture::getId`. -/
def getId (self : Texture) : GLuint := self.texture

end Texture

/-! ## The orchestrator (`ray_tracer.cpp`) -/

/-- Class `RayTracer`, data members in declaration order. -/
structure RayTracer where
  quad_program : ShaderProgram
  quad_vao : GLuint
  quad_vbo : GLuint
  quad_uvb : GLuint
  uniform_quad_sampler : GLuint
  uniform_quad_mvp : GLuint
  quad_mvp : List GLfloat
  texture_size_x : GLuint
  texture_size_y : GLuint
  texture : Texture
  tracer_program : ShaderProgram
  uniform_image_output : GLuint
  deriving DecidableEq

/-- Array `quad_vertex_data` of `init_quad`. -/
def quad_vertex_data : List GLfloat := [-1, -1, -1, 1, 1, -1, 1, 1]

/-- Array `uv_buffer_data` of `init_quad`. -/
def uv_buffer_data : List GLfloat := [0, 0, 0, 1, 1, 0, 1, 1]

/-- Value of `sizeof(GLfloat)`. -/
def sizeof_GLfloat : Nat := 4

namespace RayTracer

/-- Member `RayTracer::init_quad`.  `proj_view_model` is the value of the
expression `proj * view * model`, computed by the `mvl` library, which is not
part of these sources. -/
def init_quad (drv : Driver) (proj_view_model : List GLfloat) (self : RayTracer) (w : World) :
    Except OglException RayTracer × World :=
  match self.quad_program.get_attrib drv "pos".toList w with
  | (.error e, w1) => (.error e, w1)
  | (.ok a_pos, w1) =>
    let pos := toGLuint a_pos
    match self.quad_program.get_attrib drv "uv".toList w1 with
    | (.error e, w2) => (.error e, w2)
    | (.ok a_uv, w2) =>
      let uv := toGLuint a_uv
      match self.quad_program.get_uniform drv "mySampler".toList w2 with
      | (.error e, w3) => (.error e, w3)
      | (.ok u_sampler, w3) =>
        match self.quad_program.get_uniform drv "mvp".toList w3 with
        | (.error e, w4) => (.error e, w4)
        | (.ok u_mvp, w4) =>
          let quad_vao := (fresh w4).1
          let w5 := (fresh w4).2
            |> emit (.glGenVertexArrays quad_vao)
            |> emit (.glBindVertexArray quad_vao)
          let quad_vbo := (fresh w5).1
          let w6 := (fresh w5).2
            |> emit (.glGenBuffers quad_vbo)
            |> emit (.glBindBuffer GL_ARRAY_BUFFER quad_vbo)
            |> emit (.glBufferData GL_ARRAY_BUFFER (quad_vertex_data.length * sizeof_GLfloat)
                  quad_vertex_data GL_STATIC_DRAW)
            |> emit (.glVertexAttribPointer pos 2 GL_FLOAT false (2 * sizeof_GLfloat) 0)
            |> emit (.glEnableVertexAttribArray pos)
          let quad_uvb := (fresh w6).1
          let w7 := (fresh w6).2
            |> emit (.glGenBuffers quad_uvb)
            |> emit (.glBindBuffer GL_ARRAY_BUFFER quad_uvb)
            |> emit (.glBufferData GL_ARRAY_BUFFER (uv_buffer_data.length * sizeof_GLfloat)
                  uv_buffer_data GL_STATIC_DRAW)
            |> emit (.glVertexAttribPointer uv 2 GL_FLOAT false (2 * sizeof_GLfloat) 0)
            |> emit (.glEnableVertexAttribArray uv)
          (.ok { self with
                  uniform_quad_sampler := toGLuint u_sampler
                  uniform_quad_mvp := toGLuint u_mvp
                  quad_vao := quad_vao
                  quad_vbo := quad_vbo
                  quad_uvb := quad_uvb
                  quad_mvp := proj_view_model }, w7)

/-- Member `RayTracer::render`. -/
def render (self : RayTracer) (w : World) : World :=
  w
    |> emit (.glClearColor 0 0 0 1)
    |> emit (.glClear (GL_DEPTH_BUFFER_BIT ||| GL_COLOR_BUFFER_BIT))
    |> self.quad_program.useProgram
    |> emit (.glUniformMatrix4fv (toGLint self.uniform_quad_mvp) 1 false self.quad_mvp)
    |> emit (.glActiveTexture GL_TEXTURE0)
    |> self.texture.bindTexture
    |> emit (.glUniform1i (toGLint self.uniform_quad_sampler) 0)
    |> emit (.glBindVertexArray self.quad_vao)
    |> emit (.glDrawArrays GL_TRIANGLE_STRIP 0 4)
    |> emit (.glBindVertexArray 0)

/-- Member `RayTracer::init_texture`. -/
def init_texture (self : RayTracer) (w : World) : World :=
  w
    |> emit (.glActiveTexture GL_TEXTURE0)
    |> self.texture.bindTexture
    |> emit (.glTexParameteri GL_TEXTURE_2D GL_TEXTURE_WRAP_S GL_CLAMP_TO_EDGE)
    |> emit (.glTexParameteri GL_TEXTURE_2D GL_TEXTURE_WRAP_T GL_CLAMP_TO_EDGE)
    |> emit (.glTexParameteri GL_TEXTURE_2D GL_TEXTURE_MAG_FILTER GL_LINEAR)
    |> emit (.glTexParameteri GL_TEXTURE_2D GL_TEXTURE_MIN_FILTER GL_LINEAR)
    |> emit (.glTexImage2D GL_TEXTURE_2D 0 GL_RGBA16F self.texture_size_x self.texture_size_y 0
          GL_RGBA GL_FLOAT)
    |> emit (.glBindImageTexture 0 self.texture.getId 0 false 0 GL_WRITE_ONLY GL_RGBA16F)

/-- Member `RayTracer::trace`. -/
def trace (drv : Driver) (self : RayTracer) (w : World) : Except OglException Unit × World :=
  match self.tracer_program.get_uniform drv "eye".toList w with
  | (.error e, w1) => (.error e, w1)
  | (.ok u_eye, w1) =>
    match self.tracer_program.get_uniform drv "scene_center".toList w1 with
    | (.error e, w2) => (.error e, w2)
    | (.ok u_center, w2) =>
      match self.tracer_program.get_uniform drv "raw_up".toList w2 with
      | (.error e, w3) => (.error e, w3)
      | (.ok u_raw_up, w3) =>
        match self.tracer_program.get_uniform drv "screen_size".toList w3 with
        | (.error e, w4) => (.error e, w4)
        | (.ok u_screen_size, w4) =>
          match self.tracer_program.get_uniform drv "near".toList w4 with
          | (.error e, w5) => (.error e, w5)
          | (.ok u_near, w5) =>
            let tr_eye := toGLuint u_eye
            let tr_center := toGLuint u_center
            let tr_raw_up := toGLuint u_raw_up
            let tr_screen_size := toGLuint u_screen_size
            let tr_near := toGLuint u_near
            let eye : List GLfloat := [3 / 2, 0, -3]
            let center : List GLfloat := [0, -2, 0]
            let up : List GLfloat := [0, 1, 0]
            let screen_size : List GLfloat := [2, 2]
            let near : GLfloat := 1
            (.ok (), w5
              |> self.tracer_program.useProgram
              |> emit (.glUniform3fv (toGLint tr_eye) 1 eye)
              |> emit (.glUniform3fv (toGLint tr_center) 1 center)
              |> emit (.glUniform3fv (toGLint tr_raw_up) 1 up)
              |> emit (.glUniform2fv (toGLint tr_screen_size) 1 screen_size)
              |> emit (.glUniform1f (toGLint tr_near) near)
              |> emit (.glDispatchCompute self.texture_size_x self.texture_size_y 1)
              |> emit (.glMemoryBarrier GL_SHADER_IMAGE_ACCESS_BARRIER_BIT))

/-- Destruction of the data members of a `RayTracer`, in reverse declaration
order: `tracer_program`, `texture`, `quad_program`. -/
def destroy_members (self : RayTracer) (w : World) : World :=
  w |> self.tracer_program.dtor |> self.texture.dtor |> self.quad_program.dtor

/-- Constructor `RayTracer::RayTracer()`.  `mem` is the content of the object's
storage before construction: members without an initialiser (`texture`,
`uniform_image_output`, ... ) keep what it holds.  When a step throws, the members
constructed so far are destroyed in reverse order. -/
def ctor (drv : Driver) (fs : FileSystem) (proj_view_model : List GLfloat) (mem : RayTracer)
    (w : World) : Except OglException RayTracer × World :=
  match VFShaderProgram.ctor drv fs "../data/shaders/ray_tracer.v.glsl".toList
      "../data/shaders/ray_tracer.f.glsl".toList w with
  | (.error e, w1) => (.error e, w1)
  | (.ok quad_program, w1) =>
    match ComputeShaderProgram.ctor drv fs "../data/shaders/ray_tracer.c.glsl".toList w1 with
    | (.error e, w2) => (.error e, w2 |> mem.texture.dtor |> quad_program.dtor)
    | (.ok tracer_program, w2) =>
      let self : RayTracer := { mem with
        quad_program := quad_program
        texture_size_x := 800
        texture_size_y := 800
        tracer_program := tracer_program }
      match init_quad drv proj_view_model self w2 with
      | (.error e, w3) => (.error e, self.destroy_members w3)
      | (.ok self1, w3) =>
        let w4 := self1.init_texture w3
        match self1.trace drv w4 with
        | (.error e, w5) => (.error e, self1.destroy_members w5)
        | (.ok _, w5) => (.ok self1, w5)

/-- Destructor `RayTracer::~RayTracer()`: its body, then the members. -/
def dtor (self : RayTracer) (w : World) : World :=
  w
    |> emit (.glDeleteBuffers self.quad_vbo)
    |> emit (.glDeleteBuffers self.quad_uvb)
    |> emit (.glDeleteVertexArrays self.quad_vao)
    |> self.destroy_members

end RayTracer

/-- A call of one of the two public member functions of a `RayTracer`. -/
inductive Call
  | render
  | trace
  deriving DecidableEq

/-- Perform a sequence of public calls on a constructed `RayTracer`.  An
exception thrown by `trace()` leaves the object alive; the calls after it are the
ones a caller that catches it may still make. -/
def run_calls (drv : Driver) (self : RayTracer) : List Call → World → World
  | [], w => w
  | .render :: rest, w => run_calls drv self rest (self.render w)
  | .trace :: rest, w => run_calls drv self rest (self.trace drv w).2

/-- The state before the program has issued anything. -/
def World.start : World := { cmds := [], nextName := 1, cerr := [] }

/-- The GL commands of one run of the program: construction of the `RayTracer`
and then, when construction succeeded, the given public calls. -/
def program_commands (drv : Driver) (fs : FileSystem) (proj_view_model : List GLfloat)
    (mem : RayTracer) (calls : List Call) : List Cmd :=
  match RayTracer.ctor drv fs proj_view_model mem World.start with
  | (.error _, w) => w.cmds
  | (.ok self, w) => (run_calls drv self calls w).cmds

/-- The GL commands of a whole life of the orchestrator: construction, the given
public calls, and the destructor. -/
def lifetime_commands (drv : Driver) (fs : FileSystem) (proj_view_model : List GLfloat)
    (mem : RayTracer) (calls : List Call) : List Cmd :=
  match RayTracer.ctor drv fs proj_view_model mem World.start with
  | (.error _, w) => w.cmds
  | (.ok self, w) => (self.dtor (run_calls drv self calls w)).cmds

/-- The commands one call of `render()` issues, in order. -/
def render_commands (self : RayTracer) : List Cmd :=
  [.glClearColor 0 0 0 1,
   .glClear (GL_DEPTH_BUFFER_BIT ||| GL_COLOR_BUFFER_BIT),
   .glUseProgram self.quad_program.program,
   .glUniformMatrix4fv (toGLint self.uniform_quad_mvp) 1 false self.quad_mvp,
   .glActiveTexture GL_TEXTURE0,
   .glBindTexture GL_TEXTURE_2D self.texture.texture,
   .glUniform1i (toGLint self.uniform_quad_sampler) 0,
   .glBindVertexArray self.quad_vao,
   .glDrawArrays GL_TRIANGLE_STRIP 0 4,
   .glBindVertexArray 0]

/-- The text of a file with every line newline-terminated, in the words of the
specification: the text itself when it is empty or ends with a newline, the
text with one newline added otherwise. -/
def newline_terminated (c : List Char) : List Char :=
  if c = [] ∨ c.getLast? = some '\n' then c else c ++ ['\n']

/-! ## Vocabulary of the properties -/

/-- Command `glCompileShader`. -/
def Cmd.isCompile : Cmd → Bool
  | .glCompileShader _ => true
  | _ => false

/-- Command `glLinkProgram`. -/
def Cmd.isLink : Cmd → Bool
  | .glLinkProgram _ => true
  | _ => false

/-- Command `glShaderSource`. -/
def Cmd.isShaderSource : Cmd → Bool
  | .glShaderSource _ _ => true
  | _ => false

/-- Command `glDispatchCompute`. -/
def Cmd.isDispatch : Cmd → Bool
  | .glDispatchCompute _ _ _ => true
  | _ => false

/-- Command `glMemoryBarrier`. -/
def Cmd.isBarrier : Cmd → Bool
  | .glMemoryBarrier _ => true
  | _ => false

/-- Command `glDrawArrays`. -/
def Cmd.isDraw : Cmd → Bool
  | .glDrawArrays _ _ _ => true
  | _ => false

/-- Command `glBufferData`. -/
def Cmd.isBufferData : Cmd → Bool
  | .glBufferData _ _ _ _ => true
  | _ => false

/-- Command `glGenTextures`, the GL call that creates texture names. -/
def Cmd.isTextureCreation : Cmd → Bool
  | .glGenTextures _ => true
  | _ => false

/-- Commands through which the host program changes the texels of a texture or the
image a shader writes to: storage (re)specification, binding of an image unit,
and a compute dispatch. -/
def Cmd.writesTexture : Cmd → Bool
  | .glTexImage2D _ _ _ _ _ _ _ _ => true
  | .glBindImageTexture _ _ _ _ _ _ _ => true
  | .glDispatchCompute _ _ _ => true
  | _ => false

/-- Every `glDispatchCompute` of the list is directly followed by a
`glMemoryBarrier`. -/
def barrier_follows_dispatch : List Cmd → Bool
  | [] => true
  | [c] => !c.isDispatch
  | c :: d :: rest => (!c.isDispatch || d.isBarrier) && barrier_follows_dispatch (d :: rest)

/-! ## Concrete scenarios -/

/-- A driver that compiles and links everything, reports no info log, and knows
every name. -/
def accepting_driver : Driver :=
  { compile := fun _ _ => (true, .shader (.absent []))
    link := fun _ => (true, .program (.absent []))
    glGetAttribLocation := fun _ name => if name = "pos".toList then 0 else 1
    glGetUniformLocation := fun _ name => if name = "mvp".toList then 3 else 2 }

/-- A driver whose compiler accepts everything and whose linker rejects
everything with the log `undefined main`. -/
def link_failing_driver : Driver :=
  { accepting_driver with link := fun _ => (false, .program (.text "undefined main".toList)) }

/-- A driver whose compiler rejects everything with the log `syntax error`. -/
def compile_failing_driver : Driver :=
  { accepting_driver with
    compile := fun _ _ => (false, .shader (.text "syntax error".toList)) }

/-- A driver whose compiler accepts everything and whose linker rejects
everything with a log that reads like a compiler message about `q.v`. -/
def mimicking_link_driver : Driver :=
  { accepting_driver with
    link := fun _ => (false, .program (.text "q.v: syntax error".toList)) }

/-- A driver that knows no attribute and no uniform. -/
def nameless_driver : Driver :=
  { accepting_driver with
    glGetAttribLocation := fun _ _ => -1
    glGetUniformLocation := fun _ _ => -1 }

/-- A file system in which every file holds one line of shader text without a
final newline. -/
def one_line_files : FileSystem := fun _ => some "void main();".toList

/-- A file system without any file. -/
def no_files : FileSystem := fun _ => none

/-- A file system in which every file holds the three characters `a`, NUL, `b`. -/
def nul_files : FileSystem := fun _ => some ['a', Char.ofNat 0, 'b']

/-- Storage of a `RayTracer` before construction, with the given value where the
`texture` handle will live and zero elsewhere. -/
def storage (t : GLuint) : RayTracer :=
  { quad_program := ⟨0⟩, quad_vao := 0, quad_vbo := 0, quad_uvb := 0
    uniform_quad_sampler := 0, uniform_quad_mvp := 0, quad_mvp := []
    texture_size_x := 0, texture_size_y := 0
    texture := ⟨t⟩, tracer_program := ⟨0⟩, uniform_image_output := 0 }

/-- The `RayTracer` that construction yields with `accepting_driver` from
`World.start`, for storage `storage t`. -/
def constructed (t : GLuint) : RayTracer :=
  { storage t with
    quad_program := ⟨1⟩, tracer_program := ⟨4⟩
    quad_vao := 6, quad_vbo := 7, quad_uvb := 8
    uniform_quad_sampler := 2, uniform_quad_mvp := 3
    texture_size_x := 800, texture_size_y := 800 }

/-! ## Facts about reading files -/

theorem extract_line_eq_none (c : List Char) (h : extract_line c = none) : c = [] := by
  cases c with
  | nil => rfl
  | cons d ds =>
    unfold extract_line at h
    split at h
    · simp at h
    · split at h <;> simp at h

theorem extract_line_length (c line rest : List Char)
    (h : extract_line c = some (line, rest)) : rest.length < c.length := by
  induction c generalizing line rest with
  | nil => simp [extract_line] at h
  | cons ch cs ih =>
    unfold extract_line at h
    split at h
    · simp only [Option.some.injEq, Prod.mk.injEq] at h
      rw [← h.2]; simp
    · cases hcs : extract_line cs with
      | none =>
        rw [hcs] at h
        simp only [Option.some.injEq, Prod.mk.injEq] at h
        rw [← h.2]; simp
      | some p =>
        obtain ⟨l1, r1⟩ := p
        rw [hcs] at h
        simp only [Option.some.injEq, Prod.mk.injEq] at h
        have := ih l1 r1 hcs
        rw [← h.2]; simp; omega

theorem newline_terminated_cons_cons (a b : Char) (l : List Char) :
    newline_terminated (a :: b :: l) = a :: newline_terminated (b :: l) := by
  simp only [newline_terminated, List.getLast?_cons_cons, reduceCtorEq, false_or]
  split <;> simp

theorem newline_terminated_of_extract_line (c line rest : List Char)
    (h : extract_line c = some (line, rest)) :
    newline_terminated c = line ++ ['\n'] ++ newline_terminated rest := by
  induction c generalizing line rest with
  | nil => simp [extract_line] at h
  | cons ch cs ih =>
    unfold extract_line at h
    split at h
    · next hch =>
      simp only [Option.some.injEq, Prod.mk.injEq] at h
      obtain ⟨h1, h2⟩ := h
      subst h1 h2 hch
      cases cs with
      | nil => simp [newline_terminated]
      | cons d ds => rw [newline_terminated_cons_cons]; simp
    · next hch =>
      cases hcs : extract_line cs with
      | none =>
        rw [hcs] at h
        simp only [Option.some.injEq, Prod.mk.injEq] at h
        obtain ⟨h1, h2⟩ := h
        subst h1 h2
        have := extract_line_eq_none cs hcs
        subst this
        simp [newline_terminated, hch]
      | some p =>
        obtain ⟨l1, r1⟩ := p
        rw [hcs] at h
        simp only [Option.some.injEq, Prod.mk.injEq] at h
        obtain ⟨h1, h2⟩ := h
        subst h1 h2
        have hi := ih l1 r1 hcs
        cases cs with
        | nil => simp [extract_line] at hcs
        | cons d ds =>
          rw [newline_terminated_cons_cons, hi]
          simp

theorem getline_loop_good (bound : Nat) : ∀ (c buf : List Char) (o : Bool), c.length < bound →
    getline_loop bound { is_open := o, rest := c, failbit := false, exceptions := false } buf
      = (buf ++ newline_terminated c,
         .ok { is_open := o, rest := [], failbit := true, exceptions := false }) := by
  induction bound with
  | zero => intro c buf o hc; omega
  | succ n ih =>
    intro c buf o hc
    cases hx : extract_line c with
    | none =>
      have := extract_line_eq_none c hx
      subst this
      simp [getline_loop, std_getline, extract_line, ifstream.setstate_failbit,
        newline_terminated]
    | some p =>
      obtain ⟨line, rest⟩ := p
      have hlen : rest.length < n := by
        have := extract_line_length c line rest hx
        omega
      simp [getline_loop, std_getline, hx, ih rest _ o hlen,
        newline_terminated_of_extract_line c line rest hx]

theorem getline_loop_failed (bound : Nat) (c buf : List Char) (o : Bool) :
    getline_loop (bound + 1) { is_open := o, rest := c, failbit := true, exceptions := false }
        buf
      = (buf, .ok { is_open := o, rest := c, failbit := true, exceptions := false }) := by
  simp [getline_loop, std_getline, ifstream.setstate_failbit]

theorem read_file_try_eq (fs : FileSystem) (filename : List Char) :
    read_file_try fs filename
      = (match fs (c_str filename) with
         | some c => newline_terminated c
         | none => [], none) := by
  unfold read_file_try ifstream_ctor
  cases fs (c_str filename) with
  | none => simp [getline_loop_failed, ifstream.close, ifstream.setstate_failbit]
  | some c =>
    have := getline_loop_good (c.length + 1) c [] true (by omega)
    simp only [List.nil_append] at this
    simp [this, ifstream.close]

/-! ## Facts about the world and the shader-program helpers -/

@[simp] theorem emit_cmds (c : Cmd) (w : World) : (emit c w).cmds = w.cmds ++ [c] := rfl
@[simp] theorem emit_nextName (c : Cmd) (w : World) : (emit c w).nextName = w.nextName := rfl
@[simp] theorem emit_cerr (c : Cmd) (w : World) : (emit c w).cerr = w.cerr := rfl
@[simp] theorem fresh_fst (w : World) : (fresh w).1 = w.nextName := rfl
@[simp] theorem fresh_snd_cmds (w : World) : (fresh w).2.cmds = w.cmds := rfl
@[simp] theorem fresh_snd_nextName (w : World) : (fresh w).2.nextName = w.nextName + 1 := rfl
@[simp] theorem fresh_snd_cerr (w : World) : (fresh w).2.cerr = w.cerr := rfl

theorem c_str_version : c_str version = "#version 430\n".toList := by decide

theorem c_str_eq_self (l : List Char) (h : Char.ofNat 0 ∉ l) : c_str l = l := by
  unfold c_str
  rw [List.takeWhile_eq_self_iff]
  intro x hx
  simp only [ne_eq, decide_not, Bool.not_eq_eq_eq_not, Bool.not_true, decide_eq_false_iff_not]
  intro hx0
  exact h (hx0 ▸ hx)

theorem c_str_append_of_not_mem (a b : List Char) (h : Char.ofNat 0 ∉ a) :
    c_str (a ++ b) = a ++ c_str b := by
  unfold c_str
  apply List.takeWhile_append_of_pos
  intro x hx
  simp only [ne_eq, decide_not, Bool.not_eq_eq_eq_not, Bool.not_true, decide_eq_false_iff_not]
  intro hx0
  exact h (hx0 ▸ hx)

theorem not_mem_c_str (l : List Char) : Char.ofNat 0 ∉ c_str l := by
  intro h
  have := List.mem_takeWhile_imp h
  simp at this

theorem c_str_line (l : List Char) : c_str (c_str l ++ ['\n']) = c_str l ++ ['\n'] := by
  apply c_str_eq_self
  simp only [List.mem_append, List.mem_singleton, not_or]
  exact ⟨not_mem_c_str l, by decide⟩

theorem what_of_compile_failure (f log : List Char) (h : Char.ofNat 0 ∉ f) :
    OglException.what ⟨f ++ ": ".toList ++ (c_str log ++ ['\n'])⟩
      = f ++ ": ".toList ++ c_str log ++ ['\n'] := by
  unfold OglException.what
  rw [List.append_assoc, c_str_append_of_not_mem _ _ h,
    c_str_append_of_not_mem _ _ (by decide : Char.ofNat 0 ∉ ": ".toList), c_str_line]
  simp

theorem file_buffer_eq (fs : FileSystem) (filename : List Char) :
    file_buffer fs filename
      = match fs (c_str filename) with
        | some c => newline_terminated c
        | none => [] := by
  unfold file_buffer
  rw [read_file_try_eq]

theorem read_file_eq (fs : FileSystem) (filename : List Char) (w : World) :
    ShaderProgram.read_file fs filename w = (file_buffer fs filename, w) := by
  unfold ShaderProgram.read_file file_buffer
  rw [read_file_try_eq]

theorem create_shader_eq (drv : Driver) (fs : FileSystem) (filename : List Char) (type : GLenum)
    (w : World) :
    ShaderProgram.create_shader drv fs filename type w =
      if (drv.compile type (compiler_input fs filename)).1 = false then
        (.error ⟨filename ++ ": ".toList
            ++ ShaderProgram.print_log (drv.compile type (compiler_input fs filename)).2⟩,
          { cmds := w.cmds ++ [.glCreateShader type w.nextName,
              .glShaderSource w.nextName [c_str version, c_str (file_buffer fs filename)],
              .glCompileShader w.nextName, .glDeleteShader w.nextName],
            nextName := w.nextName + 1, cerr := w.cerr })
      else
        (.ok w.nextName,
          { cmds := w.cmds ++ [.glCreateShader type w.nextName,
              .glShaderSource w.nextName [c_str version, c_str (file_buffer fs filename)],
              .glCompileShader w.nextName],
            nextName := w.nextName + 1, cerr := w.cerr }) := by
  unfold ShaderProgram.create_shader
  simp only [read_file_eq, compiler_input]
  split <;> simp [emit, fresh]

theorem linkProgram_eq (drv : Driver) (self : ShaderProgram)
    (attached : List (GLenum × List Char)) (w : World) :
    self.linkProgram drv attached w =
      if (drv.link attached).1 = false then
        (.error ⟨ShaderProgram.print_log (drv.link attached).2⟩,
          { cmds := w.cmds ++ [.glLinkProgram self.program, .glDeleteProgram self.program],
            nextName := w.nextName, cerr := w.cerr })
      else
        (.ok (), { cmds := w.cmds ++ [.glLinkProgram self.program],
                   nextName := w.nextName, cerr := w.cerr }) := by
  unfold ShaderProgram.linkProgram
  split <;> simp_all [emit]

/-! ## Shader-program construction -/

/-- C2: a `VFShaderProgram` is constructed without an exception exactly when the
vertex stage compiles, the fragment stage compiles and the link succeeds; a
`ComputeShaderProgram` exactly when its stage compiles and the link succeeds.
When a stage fails to compile, no later stage is compiled and no link is
attempted; a program that is returned has had all its stages compiled and was
linked last. -/
theorem shader_program_construction_succeeds_iff (drv : Driver) (fs : FileSystem)
    (vs_filename fs_filename filename : List Char) (w : World) :
    ((∃ p, (VFShaderProgram.ctor drv fs vs_filename fs_filename w).1 = .ok p) ↔
      ((drv.compile GL_VERTEX_SHADER (compiler_input fs vs_filename)).1 = true ∧
       (drv.compile GL_FRAGMENT_SHADER (compiler_input fs fs_filename)).1 = true ∧
       (drv.link [(GL_VERTEX_SHADER, compiler_input fs vs_filename),
                  (GL_FRAGMENT_SHADER, compiler_input fs fs_filename)]).1 = true)) ∧
    ((∃ p, (ComputeShaderProgram.ctor drv fs filename w).1 = .ok p) ↔
      ((drv.compile GL_COMPUTE_SHADER (compiler_input fs filename)).1 = true ∧
       (drv.link [(GL_COMPUTE_SHADER, compiler_input fs filename)]).1 = true)) ∧
    ((drv.compile GL_VERTEX_SHADER (compiler_input fs vs_filename)).1 = false →
      ∃ new, (VFShaderProgram.ctor drv fs vs_filename fs_filename w).2.cmds = w.cmds ++ new ∧
        new.countP Cmd.isCompile = 1 ∧ new.countP Cmd.isLink = 0) ∧
    ((drv.compile GL_VERTEX_SHADER (compiler_input fs vs_filename)).1 = true →
     (drv.compile GL_FRAGMENT_SHADER (compiler_input fs fs_filename)).1 = false →
      ∃ new, (VFShaderProgram.ctor drv fs vs_filename fs_filename w).2.cmds = w.cmds ++ new ∧
        new.countP Cmd.isCompile = 2 ∧ new.countP Cmd.isLink = 0) ∧
    ((drv.compile GL_COMPUTE_SHADER (compiler_input fs filename)).1 = false →
      ∃ new, (ComputeShaderProgram.ctor drv fs filename w).2.cmds = w.cmds ++ new ∧
        new.countP Cmd.isCompile = 1 ∧ new.countP Cmd.isLink = 0) ∧
    (∀ p, (VFShaderProgram.ctor drv fs vs_filename fs_filename w).1 = .ok p →
      ∃ new, (VFShaderProgram.ctor drv fs vs_filename fs_filename w).2.cmds = w.cmds ++ new ∧
        new.countP Cmd.isCompile = 2 ∧ new.getLast? = some (.glLinkProgram p.program)) ∧
    (∀ p, (ComputeShaderProgram.ctor drv fs filename w).1 = .ok p →
      ∃ new, (ComputeShaderProgram.ctor drv fs filename w).2.cmds = w.cmds ++ new ∧
        new.countP Cmd.isCompile = 1 ∧ new.getLast? = some (.glLinkProgram p.program)) := by
  refine ⟨?_, ?_, ?_, ?_, ?_, ?_, ?_⟩
  · unfold VFShaderProgram.ctor
    simp only [create_shader_eq, linkProgram_eq, ShaderProgram.ctor, ShaderProgram.dtor]
    by_cases h1 : (drv.compile GL_VERTEX_SHADER (compiler_input fs vs_filename)).1 = true
    · by_cases h2 : (drv.compile GL_FRAGMENT_SHADER (compiler_input fs fs_filename)).1 = true
      · by_cases h3 : (drv.link [(GL_VERTEX_SHADER, compiler_input fs vs_filename),
                  (GL_FRAGMENT_SHADER, compiler_input fs fs_filename)]).1 = true
        · simp [h1, h2, h3]
        · simp [h1, h2, h3]
      · simp [h1, h2]
    · simp [h1]
  · unfold ComputeShaderProgram.ctor
    simp only [create_shader_eq, linkProgram_eq, ShaderProgram.ctor, ShaderProgram.dtor]
    by_cases h1 : (drv.compile GL_COMPUTE_SHADER (compiler_input fs filename)).1 = true
    · by_cases h3 : (drv.link [(GL_COMPUTE_SHADER, compiler_input fs filename)]).1 = true
      · simp [h1, h3]
      · simp [h1, h3]
    · simp [h1]
  · intro h1
    unfold VFShaderProgram.ctor
    simp only [create_shader_eq, linkProgram_eq, ShaderProgram.ctor, ShaderProgram.dtor]
    simp [h1, Cmd.isCompile, Cmd.isLink]
  · intro h1 h2
    unfold VFShaderProgram.ctor
    simp only [create_shader_eq, linkProgram_eq, ShaderProgram.ctor, ShaderProgram.dtor]
    simp [h1, h2, Cmd.isCompile, Cmd.isLink]
  · intro h1
    unfold ComputeShaderProgram.ctor
    simp only [create_shader_eq, linkProgram_eq, ShaderProgram.ctor, ShaderProgram.dtor]
    simp [h1, Cmd.isCompile, Cmd.isLink]
  · intro p
    unfold VFShaderProgram.ctor
    simp only [create_shader_eq, linkProgram_eq, ShaderProgram.ctor, ShaderProgram.dtor]
    by_cases h1 : (drv.compile GL_VERTEX_SHADER (compiler_input fs vs_filename)).1 = true
    · by_cases h2 : (drv.compile GL_FRAGMENT_SHADER (compiler_input fs fs_filename)).1 = true
      · by_cases h3 : (drv.link [(GL_VERTEX_SHADER, compiler_input fs vs_filename),
                  (GL_FRAGMENT_SHADER, compiler_input fs fs_filename)]).1 = true
        · simp only [h1, h2, h3]
          intro hp
          simp only [Bool.true_eq_false, ↓reduceIte, emit_cmds, fresh_fst, fresh_snd_cmds,
            Except.ok.injEq] at hp
          subst hp
          simp [Cmd.isCompile]
        · simp [h1, h2, h3]
      · simp [h1, h2]
    · simp [h1]
  · intro p
    unfold ComputeShaderProgram.ctor
    simp only [create_shader_eq, linkProgram_eq, ShaderProgram.ctor, ShaderProgram.dtor]
    by_cases h1 : (drv.compile GL_COMPUTE_SHADER (compiler_input fs filename)).1 = true
    · by_cases h3 : (drv.link [(GL_COMPUTE_SHADER, compiler_input fs filename)]).1 = true
      · simp only [h1, h3]
        intro hp
        simp only [Bool.true_eq_false, ↓reduceIte, emit_cmds, fresh_fst, fresh_snd_cmds,
          Except.ok.injEq] at hp
        subst hp
        simp [Cmd.isCompile]
      · simp [h1, h3]
    · simp [h1]

/-- Witness of C2: with an accepting driver the quad program is constructed; with
a rejecting compiler the construction stops after one compilation and never
links. -/
theorem shader_program_construction_succeeds_iff_witness :
    (∃ p, (VFShaderProgram.ctor accepting_driver one_line_files "q.v".toList "q.f".toList
        World.start).1 = .ok p) ∧
    (∃ new, (VFShaderProgram.ctor compile_failing_driver one_line_files "q.v".toList
        "q.f".toList World.start).2.cmds = World.start.cmds ++ new ∧
        new.countP Cmd.isCompile = 1 ∧ new.countP Cmd.isLink = 0) :=
  ⟨(shader_program_construction_succeeds_iff accepting_driver one_line_files "q.v".toList
      "q.f".toList "q.c".toList World.start).1.mpr ⟨rfl, rfl, rfl⟩,
   (shader_program_construction_succeeds_iff compile_failing_driver one_line_files
      "q.v".toList "q.f".toList "q.c".toList World.start).2.2.1 rfl⟩

/-! ## Name lookup -/

/-- C3: `get_attrib` and `get_uniform` throw exactly when the location lookup of
the name (as the C string the GL receives) is negative; the message `what()` of
the exception is the fixed text followed by that C string, so it ends with the
symbol that was looked up, and with the name itself when the name holds no NUL
character; on success the result is the non-negative location of the lookup; the
world is left as it was. -/
theorem get_attrib_get_uniform_binding (drv : Driver) (self : ShaderProgram)
    (name : List Char) (w : World) :
    ((∃ e, (self.get_attrib drv name w).1 = .error e) ↔
      drv.glGetAttribLocation self.program (c_str name) < 0) ∧
    ((∃ e, (self.get_uniform drv name w).1 = .error e) ↔
      drv.glGetUniformLocation self.program (c_str name) < 0) ∧
    (∀ e, (self.get_attrib drv name w).1 = .error e →
      e.what = "Could not bind attribute ".toList ++ c_str name ∧ c_str name <:+ e.what ∧
      (Char.ofNat 0 ∉ name →
        e.what = "Could not bind attribute ".toList ++ name ∧ name <:+ e.what)) ∧
    (∀ e, (self.get_uniform drv name w).1 = .error e →
      e.what = "Could not bind attribute ".toList ++ c_str name ∧ c_str name <:+ e.what ∧
      (Char.ofNat 0 ∉ name →
        e.what = "Could not bind attribute ".toList ++ name ∧ name <:+ e.what)) ∧
    (∀ a, (self.get_attrib drv name w).1 = .ok a →
      a = drv.glGetAttribLocation self.program (c_str name) ∧ 0 ≤ a) ∧
    (∀ u, (self.get_uniform drv name w).1 = .ok u →
      u = drv.glGetUniformLocation self.program (c_str name) ∧ 0 ≤ u) ∧
    (self.get_attrib drv name w).2 = w ∧ (self.get_uniform drv name w).2 = w := by
  have hwhat : OglException.what ⟨"Could not bind attribute ".toList ++ name⟩
      = "Could not bind attribute ".toList ++ c_str name := by
    unfold OglException.what
    exact c_str_append_of_not_mem _ _ (by decide)
  have hmsg : ∀ e : OglException, e = ⟨"Could not bind attribute ".toList ++ name⟩ →
      e.what = "Could not bind attribute ".toList ++ c_str name ∧ c_str name <:+ e.what ∧
      (Char.ofNat 0 ∉ name →
        e.what = "Could not bind attribute ".toList ++ name ∧ name <:+ e.what) := by
    intro e he
    subst he
    rw [hwhat]
    refine ⟨rfl, List.suffix_append _ _, ?_⟩
    intro hn
    rw [c_str_eq_self name hn]
    exact ⟨rfl, List.suffix_append _ _⟩
  unfold ShaderProgram.get_attrib ShaderProgram.get_uniform
  refine ⟨?_, ?_, ?_, ?_, ?_, ?_, ?_, ?_⟩
  · by_cases h : drv.glGetAttribLocation self.program (c_str name) < 0 <;> simp [h]
  · by_cases h : drv.glGetUniformLocation self.program (c_str name) < 0 <;> simp [h]
  · intro e
    by_cases h : drv.glGetAttribLocation self.program (c_str name) < 0
    · simp only [h, ↓reduceIte, Except.error.injEq]
      intro he
      exact hmsg e he.symm
    · simp [h]
  · intro e
    by_cases h : drv.glGetUniformLocation self.program (c_str name) < 0
    · simp only [h, ↓reduceIte, Except.error.injEq]
      intro he
      exact hmsg e he.symm
    · simp [h]
  · intro a
    by_cases h : drv.glGetAttribLocation self.program (c_str name) < 0
    · simp [h]
    · simp only [h, ↓reduceIte, Except.ok.injEq]
      intro ha; subst ha
      exact ⟨rfl, not_lt.mp h⟩
  · intro u
    by_cases h : drv.glGetUniformLocation self.program (c_str name) < 0
    · simp [h]
    · simp only [h, ↓reduceIte, Except.ok.injEq]
      intro hu; subst hu
      exact ⟨rfl, not_lt.mp h⟩
  · by_cases h : drv.glGetAttribLocation self.program (c_str name) < 0 <;> simp [h]
  · by_cases h : drv.glGetUniformLocation self.program (c_str name) < 0 <;> simp [h]

/-- Witness of C3: a driver that knows no name makes the lookup of `pos` throw,
with the fixed text followed by `pos` as message; a driver that knows `uv`
returns its location. -/
theorem get_attrib_get_uniform_binding_witness :
    (∃ e, (ShaderProgram.get_attrib nameless_driver ⟨1⟩ "pos".toList World.start).1
        = .error e) ∧
    (OglException.what ⟨"Could not bind attribute pos".toList⟩
        = "Could not bind attribute ".toList ++ "pos".toList ∧
      "pos".toList <:+ OglException.what ⟨"Could not bind attribute pos".toList⟩) ∧
    ((1 : GLint) = accepting_driver.glGetAttribLocation 1 (c_str "uv".toList) ∧
      (0 : GLint) ≤ 1) :=
  ⟨(get_attrib_get_uniform_binding nameless_driver ⟨1⟩ "pos".toList World.start).1.mpr
      (by decide),
   ((get_attrib_get_uniform_binding nameless_driver ⟨1⟩ "pos".toList World.start).2.2.1
      ⟨"Could not bind attribute pos".toList⟩ (by rfl)).2.2 (by decide),
   (get_attrib_get_uniform_binding accepting_driver ⟨1⟩ "uv".toList World.start).2.2.2.2.1 1
      (by rfl)⟩

/-! ## Diagnostics carried by construction failures -/

/-- C4, as the code has it.  Every construction failure throws an `OglException`.
When the compiler reports an info log and the file name `f` of the stage holds no
NUL character, the message `what()` of a compile failure is `f`, a colon and a
blank, the log (as a C string) and a newline, so it contains both `f` and the
log.  When the linker reports an info log, the message of a link failure is that
log and a newline, nothing else. -/
theorem construction_failure_message (drv : Driver) (fs : FileSystem)
    (vs_filename fs_filename filename : List Char) (w : World) (log : List Char) :
    (drv.compile GL_VERTEX_SHADER (compiler_input fs vs_filename)
        = (false, .shader (.text log)) →
     Char.ofNat 0 ∉ vs_filename →
      ∃ e, (VFShaderProgram.ctor drv fs vs_filename fs_filename w).1 = .error e ∧
        e.what = vs_filename ++ ": ".toList ++ c_str log ++ ['\n'] ∧
        vs_filename <:+: e.what ∧ c_str log <:+: e.what) ∧
    ((drv.compile GL_VERTEX_SHADER (compiler_input fs vs_filename)).1 = true →
     drv.compile GL_FRAGMENT_SHADER (compiler_input fs fs_filename)
        = (false, .shader (.text log)) →
     Char.ofNat 0 ∉ fs_filename →
      ∃ e, (VFShaderProgram.ctor drv fs vs_filename fs_filename w).1 = .error e ∧
        e.what = fs_filename ++ ": ".toList ++ c_str log ++ ['\n'] ∧
        fs_filename <:+: e.what ∧ c_str log <:+: e.what) ∧
    ((drv.compile GL_VERTEX_SHADER (compiler_input fs vs_filename)).1 = true →
     (drv.compile GL_FRAGMENT_SHADER (compiler_input fs fs_filename)).1 = true →
     drv.link [(GL_VERTEX_SHADER, compiler_input fs vs_filename),
               (GL_FRAGMENT_SHADER, compiler_input fs fs_filename)]
        = (false, .program (.text log)) →
      ∃ e, (VFShaderProgram.ctor drv fs vs_filename fs_filename w).1 = .error e ∧
        e.what = c_str log ++ ['\n']) ∧
    (drv.compile GL_COMPUTE_SHADER (compiler_input fs filename)
        = (false, .shader (.text log)) →
     Char.ofNat 0 ∉ filename →
      ∃ e, (ComputeShaderProgram.ctor drv fs filename w).1 = .error e ∧
        e.what = filename ++ ": ".toList ++ c_str log ++ ['\n'] ∧
        filename <:+: e.what ∧ c_str log <:+: e.what) ∧
    ((drv.compile GL_COMPUTE_SHADER (compiler_input fs filename)).1 = true →
     drv.link [(GL_COMPUTE_SHADER, compiler_input fs filename)]
        = (false, .program (.text log)) →
      ∃ e, (ComputeShaderProgram.ctor drv fs filename w).1 = .error e ∧
        e.what = c_str log ++ ['\n']) := by
  have hin1 : ∀ (f : List Char), f <:+: f ++ ": ".toList ++ c_str log ++ ['\n'] := by
    intro f
    exact ⟨[], ": ".toList ++ c_str log ++ ['\n'], by simp⟩
  have hin2 : ∀ (f : List Char), c_str log <:+: f ++ ": ".toList ++ c_str log ++ ['\n'] := by
    intro f
    exact ⟨f ++ ": ".toList, ['\n'], by simp⟩
  have hlink : OglException.what ⟨c_str log ++ ['\n']⟩ = c_str log ++ ['\n'] := c_str_line log
  refine ⟨?_, ?_, ?_, ?_, ?_⟩
  · intro h1 hn
    refine ⟨⟨vs_filename ++ ": ".toList ++ (c_str log ++ ['\n'])⟩, ?_, ?_⟩
    · unfold VFShaderProgram.ctor
      simp only [create_shader_eq, linkProgram_eq, ShaderProgram.ctor, ShaderProgram.dtor]
      simp [h1, ShaderProgram.print_log]
    · rw [what_of_compile_failure _ _ hn]
      exact ⟨rfl, hin1 _, hin2 _⟩
  · intro h1 h2 hn
    refine ⟨⟨fs_filename ++ ": ".toList ++ (c_str log ++ ['\n'])⟩, ?_, ?_⟩
    · unfold VFShaderProgram.ctor
      simp only [create_shader_eq, linkProgram_eq, ShaderProgram.ctor, ShaderProgram.dtor]
      simp [h1, h2, ShaderProgram.print_log]
    · rw [what_of_compile_failure _ _ hn]
      exact ⟨rfl, hin1 _, hin2 _⟩
  · intro h1 h2 h3
    refine ⟨⟨c_str log ++ ['\n']⟩, ?_, hlink⟩
    unfold VFShaderProgram.ctor
    simp only [create_shader_eq, linkProgram_eq, ShaderProgram.ctor, ShaderProgram.dtor]
    simp [h1, h2, h3, ShaderProgram.print_log]
  · intro h1 hn
    refine ⟨⟨filename ++ ": ".toList ++ (c_str log ++ ['\n'])⟩, ?_, ?_⟩
    · unfold ComputeShaderProgram.ctor
      simp only [create_shader_eq, linkProgram_eq, ShaderProgram.ctor, ShaderProgram.dtor]
      simp [h1, ShaderProgram.print_log]
    · rw [what_of_compile_failure _ _ hn]
      exact ⟨rfl, hin1 _, hin2 _⟩
  · intro h1 h3
    refine ⟨⟨c_str log ++ ['\n']⟩, ?_, hlink⟩
    unfold ComputeShaderProgram.ctor
    simp only [create_shader_eq, linkProgram_eq, ShaderProgram.ctor, ShaderProgram.dtor]
    simp [h1, h3, ShaderProgram.print_log]

/-- Witness of C4 as amended: the rejecting compiler makes the quad program fail
with a message that contains the vertex file name and the log, and the rejecting
linker makes it fail with the bare linker log. -/
theorem construction_failure_message_witness :
    (∃ e, (VFShaderProgram.ctor compile_failing_driver one_line_files "q.v".toList
        "q.f".toList World.start).1 = .error e ∧
        e.what = "q.v".toList ++ ": ".toList ++ c_str "syntax error".toList ++ ['\n'] ∧
        "q.v".toList <:+: e.what ∧ c_str "syntax error".toList <:+: e.what) ∧
    (∃ e, (VFShaderProgram.ctor link_failing_driver one_line_files "q.v".toList "q.f".toList
        World.start).1 = .error e ∧
        e.what = c_str "undefined main".toList ++ ['\n']) :=
  ⟨(construction_failure_message compile_failing_driver one_line_files "q.v".toList
      "q.f".toList "q.c".toList World.start "syntax error".toList).1 rfl (by decide),
   (construction_failure_message link_failing_driver one_line_files "q.v".toList
      "q.f".toList "q.c".toList World.start "undefined main".toList).2.2.1 rfl rfl rfl⟩

/-- C4 fails as stated: the exception of a link failure of the program built from
`q.v` and `q.f` has the message `undefined main` and a newline, which contains
neither file name; a link failure can throw the very same exception value as a
compile failure, so the two are not of distinguishable kinds; and the message of
a compile failure of a file whose name holds a NUL character ends at that
character, before the log. -/
theorem link_failure_message_names_no_file :
    (VFShaderProgram.ctor link_failing_driver one_line_files "q.v".toList "q.f".toList
        World.start).1 = .error ⟨"undefined main\n".toList⟩ ∧
    OglException.what ⟨"undefined main\n".toList⟩ = "undefined main\n".toList ∧
    ¬ ("q.v".toList <:+: "undefined main\n".toList) ∧
    ¬ ("q.f".toList <:+: "undefined main\n".toList) ∧
    (VFShaderProgram.ctor mimicking_link_driver one_line_files "q.v".toList "q.f".toList
        World.start).1 =
      (VFShaderProgram.ctor compile_failing_driver one_line_files "q.v".toList "q.f".toList
        World.start).1 ∧
    (ComputeShaderProgram.ctor compile_failing_driver one_line_files
        ['q', '.', 'c', Char.ofNat 0, 'x'] World.start).1
      = .error ⟨['q', '.', 'c', Char.ofNat 0, 'x'] ++ ": syntax error\n".toList⟩ ∧
    OglException.what ⟨['q', '.', 'c', Char.ofNat 0, 'x'] ++ ": syntax error\n".toList⟩
      = "q.c".toList := by
  refine ⟨by rfl, by decide, by decide, by decide, by rfl, by rfl, by decide⟩

/-! ## Missing files and the text handed to the compiler -/

/-- C8 at a missing file: `read_file` returns the empty string and leaves
`std::cerr` untouched, so no warning is written; the stage is then compiled from
the version header and an empty string. -/
theorem read_file_missing_file_logs_nothing :
    ShaderProgram.read_file no_files "../data/shaders/ray_tracer.v.glsl".toList World.start
      = ([], World.start) ∧
    (ShaderProgram.read_file no_files "../data/shaders/ray_tracer.v.glsl".toList
      World.start).2.cerr = [] ∧
    (ShaderProgram.create_shader compile_failing_driver no_files
      "../data/shaders/ray_tracer.v.glsl".toList GL_VERTEX_SHADER World.start)
      = (.error ⟨"../data/shaders/ray_tracer.v.glsl: syntax error\n".toList⟩,
         { cmds := [.glCreateShader GL_VERTEX_SHADER 1,
                    .glShaderSource 1 ["#version 430\n".toList, []],
                    .glCompileShader 1, .glDeleteShader 1],
           nextName := 2, cerr := [] }) := by
  refine ⟨by decide, by decide, by rfl⟩

theorem not_mem_newline_terminated (c : List Char) (h : Char.ofNat 0 ∉ c) :
    Char.ofNat 0 ∉ newline_terminated c := by
  unfold newline_terminated
  split
  · exact h
  · simp only [List.mem_append, List.mem_singleton, not_or]
    exact ⟨h, by decide⟩

/-- C9, as the code has it: for a readable file with text `c`, the compiler is
given the header `#version 430` with its newline, followed by the C-string prefix
(up to the first NUL) of the text with its last line newline-terminated; when `c`
holds no NUL character this is the header followed by `c` itself if `c` is empty
or ends with a newline, and by `c` plus one newline otherwise. -/
theorem create_shader_source_text (drv : Driver) (fs : FileSystem) (filename : List Char)
    (type : GLenum) (w : World) (c : List Char) (hc : fs (c_str filename) = some c) :
    ((∃ r, (ShaderProgram.create_shader drv fs filename type w).1 = .ok r) ↔
      (drv.compile type ("#version 430\n".toList ++ c_str (newline_terminated c))).1 = true) ∧
    (∃ new, (ShaderProgram.create_shader drv fs filename type w).2.cmds = w.cmds ++ new ∧
      new.filter Cmd.isShaderSource =
        [.glShaderSource w.nextName
          ["#version 430\n".toList, c_str (newline_terminated c)]]) ∧
    (Char.ofNat 0 ∉ c →
      c_str (newline_terminated c) = (if c = [] ∨ c.getLast? = some '\n' then c else c ++ ['\n'])) := by
  have hbuf : file_buffer fs filename = newline_terminated c := by
    rw [file_buffer_eq, hc]
  refine ⟨?_, ?_, ?_⟩
  · rw [create_shader_eq]
    simp only [compiler_input, hbuf, c_str_version]
    cases (drv.compile type ("#version 430\n".toList ++ c_str (newline_terminated c))).1 <;> simp
  · rw [create_shader_eq]
    simp only [hbuf, c_str_version]
    split
    · exact ⟨_, rfl, by simp [Cmd.isShaderSource]⟩
    · exact ⟨_, rfl, by simp [Cmd.isShaderSource]⟩
  · intro hnul
    rw [c_str_eq_self _ (not_mem_newline_terminated c hnul)]
    rfl

/-- Witness of C9 as amended: a one-line file without a final newline reaches the
compiler as the header, the line and one added newline. -/
theorem create_shader_source_text_witness :
    ((∃ r, (ShaderProgram.create_shader accepting_driver one_line_files "q.c".toList
        GL_COMPUTE_SHADER World.start).1 = .ok r) ↔
      (accepting_driver.compile GL_COMPUTE_SHADER
        ("#version 430\n".toList ++ c_str (newline_terminated "void main();".toList))).1
        = true) ∧
    c_str (newline_terminated "void main();".toList) = "void main();\n".toList :=
  ⟨(create_shader_source_text accepting_driver one_line_files "q.c".toList GL_COMPUTE_SHADER
      World.start "void main();".toList rfl).1,
   (create_shader_source_text accepting_driver one_line_files "q.c".toList GL_COMPUTE_SHADER
      World.start "void main();".toList rfl).2.2 (by decide)⟩

/-- C9 fails as stated: for a readable file holding `a`, NUL, `b` the compiler is
handed the header followed by `a` only, not the header followed by the file text
and a newline. -/
theorem nul_character_truncates_source :
    (ShaderProgram.create_shader accepting_driver nul_files "q.c".toList GL_COMPUTE_SHADER
        World.start).2.cmds
      = [.glCreateShader GL_COMPUTE_SHADER 1,
         .glShaderSource 1 ["#version 430\n".toList, ['a']],
         .glCompileShader 1] ∧
    compiler_input nul_files "q.c".toList = "#version 430\na".toList ∧
    compiler_input nul_files "q.c".toList
      ≠ "#version 430\n".toList ++ (['a', Char.ofNat 0, 'b'] ++ ['\n']) := by
  refine ⟨by decide, by decide, by decide⟩

/-! ## Facts about dispatches in command lists -/

theorem barrier_follows_dispatch_append (l1 l2 : List Cmd)
    (h1 : barrier_follows_dispatch l1 = true) (h2 : barrier_follows_dispatch l2 = true) :
    barrier_follows_dispatch (l1 ++ l2) = true := by
  induction l1 with
  | nil => simpa using h2
  | cons c t ih =>
    cases t with
    | nil =>
      cases l2 with
      | nil => simpa using h1
      | cons d r =>
        simp only [barrier_follows_dispatch, Bool.not_eq_true'] at h1
        simp [barrier_follows_dispatch, h1, h2]
    | cons d r =>
      simp only [barrier_follows_dispatch, Bool.and_eq_true] at h1
      have := ih h1.2
      simp only [List.cons_append, barrier_follows_dispatch, Bool.and_eq_true]
      exact ⟨h1.1, by simpa using this⟩

theorem barrier_follows_dispatch_of_no_dispatch (l : List Cmd)
    (h : l.countP Cmd.isDispatch = 0) : barrier_follows_dispatch l = true := by
  induction l with
  | nil => rfl
  | cons c t ih =>
    rw [List.countP_cons] at h
    have hc : c.isDispatch = false := by
      cases hd : c.isDispatch
      · rfl
      · simp [hd] at h
    have ht : t.countP Cmd.isDispatch = 0 := by omega
    cases t with
    | nil => simp [barrier_follows_dispatch, hc]
    | cons d r => simp [barrier_follows_dispatch, hc, ih ht]

theorem vf_ctor_cmds (drv : Driver) (fs : FileSystem) (vsf fsf : List Char) (w : World) :
    ∃ new, (VFShaderProgram.ctor drv fs vsf fsf w).2.cmds = w.cmds ++ new ∧
      new.countP Cmd.isDispatch = 0 := by
  unfold VFShaderProgram.ctor
  simp only [create_shader_eq, linkProgram_eq, ShaderProgram.ctor, ShaderProgram.dtor]
  cases (drv.compile GL_VERTEX_SHADER (compiler_input fs vsf)).1 <;>
  cases (drv.compile GL_FRAGMENT_SHADER (compiler_input fs fsf)).1 <;>
  cases (drv.link [(GL_VERTEX_SHADER, compiler_input fs vsf),
                (GL_FRAGMENT_SHADER, compiler_input fs fsf)]).1 <;>
  simp [Cmd.isDispatch]

theorem compute_ctor_cmds (drv : Driver) (fs : FileSystem) (f : List Char) (w : World) :
    ∃ new, (ComputeShaderProgram.ctor drv fs f w).2.cmds = w.cmds ++ new ∧
      new.countP Cmd.isDispatch = 0 := by
  unfold ComputeShaderProgram.ctor
  simp only [create_shader_eq, linkProgram_eq, ShaderProgram.ctor, ShaderProgram.dtor]
  cases (drv.compile GL_COMPUTE_SHADER (compiler_input fs f)).1 <;>
  cases (drv.link [(GL_COMPUTE_SHADER, compiler_input fs f)]).1 <;>
  simp [Cmd.isDispatch]

theorem get_attrib_snd (drv : Driver) (self : ShaderProgram) (name : List Char) (w : World) :
    (self.get_attrib drv name w).2 = w := by
  unfold ShaderProgram.get_attrib
  by_cases h : drv.glGetAttribLocation self.program (c_str name) < 0 <;> simp [h]

theorem get_uniform_snd (drv : Driver) (self : ShaderProgram) (name : List Char) (w : World) :
    (self.get_uniform drv name w).2 = w := by
  unfold ShaderProgram.get_uniform
  by_cases h : drv.glGetUniformLocation self.program (c_str name) < 0 <;> simp [h]

theorem get_attrib_eq (drv : Driver) (self : ShaderProgram) (name : List Char) (w : World) :
    self.get_attrib drv name w = ((self.get_attrib drv name w).1, w) :=
  Prod.ext rfl (get_attrib_snd drv self name w)

theorem get_uniform_eq (drv : Driver) (self : ShaderProgram) (name : List Char) (w : World) :
    self.get_uniform drv name w = ((self.get_uniform drv name w).1, w) :=
  Prod.ext rfl (get_uniform_snd drv self name w)

theorem trace_cmds (drv : Driver) (self : RayTracer) (w : World) :
    ∃ new, (self.trace drv w).2.cmds = w.cmds ++ new ∧
      barrier_follows_dispatch new = true ∧
      ((self.trace drv w).1 = .ok () → new.countP Cmd.isDispatch = 1) := by
  unfold RayTracer.trace
  rw [get_uniform_eq drv _ "eye".toList]
  cases (self.tracer_program.get_uniform drv "eye".toList w).1 with
  | error e => exact ⟨[], by simp, rfl, by intro h; cases h⟩
  | ok u1 =>
    simp only []
    rw [get_uniform_eq drv _ "scene_center".toList]
    cases (self.tracer_program.get_uniform drv "scene_center".toList w).1 with
    | error e => exact ⟨[], by simp, rfl, by intro h; cases h⟩
    | ok u2 =>
      simp only []
      rw [get_uniform_eq drv _ "raw_up".toList]
      cases (self.tracer_program.get_uniform drv "raw_up".toList w).1 with
      | error e => exact ⟨[], by simp, rfl, by intro h; cases h⟩
      | ok u3 =>
        simp only []
        rw [get_uniform_eq drv _ "screen_size".toList]
        cases (self.tracer_program.get_uniform drv "screen_size".toList w).1 with
        | error e => exact ⟨[], by simp, rfl, by intro h; cases h⟩
        | ok u4 =>
          simp only []
          rw [get_uniform_eq drv _ "near".toList]
          cases (self.tracer_program.get_uniform drv "near".toList w).1 with
          | error e => exact ⟨[], by simp, rfl, by intro h; cases h⟩
          | ok u5 =>
            refine ⟨[.glUseProgram self.tracer_program.program,
              .glUniform3fv (toGLint (toGLuint u1)) 1 [3 / 2, 0, -3],
              .glUniform3fv (toGLint (toGLuint u2)) 1 [0, -2, 0],
              .glUniform3fv (toGLint (toGLuint u3)) 1 [0, 1, 0],
              .glUniform2fv (toGLint (toGLuint u4)) 1 [2, 2],
              .glUniform1f (toGLint (toGLuint u5)) 1,
              .glDispatchCompute self.texture_size_x self.texture_size_y 1,
              .glMemoryBarrier GL_SHADER_IMAGE_ACCESS_BARRIER_BIT], ?_, ?_, ?_⟩
            · simp [ShaderProgram.useProgram]
            · simp [barrier_follows_dispatch, Cmd.isDispatch, Cmd.isBarrier]
            · intro _; simp [Cmd.isDispatch]

theorem init_quad_cases (drv : Driver) (proj_view_model : List GLfloat) (self : RayTracer)
    (w : World) :
    (∃ e, RayTracer.init_quad drv proj_view_model self w = (.error e, w)) ∨
    (∃ pos uv u_sampler u_mvp : GLint,
      RayTracer.init_quad drv proj_view_model self w =
        (.ok { self with
                uniform_quad_sampler := toGLuint u_sampler
                uniform_quad_mvp := toGLuint u_mvp
                quad_vao := w.nextName
                quad_vbo := w.nextName + 1
                quad_uvb := w.nextName + 2
                quad_mvp := proj_view_model },
         { cmds := w.cmds ++
            [.glGenVertexArrays w.nextName,
             .glBindVertexArray w.nextName,
             .glGenBuffers (w.nextName + 1),
             .glBindBuffer GL_ARRAY_BUFFER (w.nextName + 1),
             .glBufferData GL_ARRAY_BUFFER 32 [-1, -1, -1, 1, 1, -1, 1, 1] GL_STATIC_DRAW,
             .glVertexAttribPointer (toGLuint pos) 2 GL_FLOAT false 8 0,
             .glEnableVertexAttribArray (toGLuint pos),
             .glGenBuffers (w.nextName + 2),
             .glBindBuffer GL_ARRAY_BUFFER (w.nextName + 2),
             .glBufferData GL_ARRAY_BUFFER 32 [0, 0, 0, 1, 1, 0, 1, 1] GL_STATIC_DRAW,
             .glVertexAttribPointer (toGLuint uv) 2 GL_FLOAT false 8 0,
             .glEnableVertexAttribArray (toGLuint uv)],
           nextName := w.nextName + 3, cerr := w.cerr })) := by
  unfold RayTracer.init_quad
  rw [get_attrib_eq drv _ "pos".toList]
  cases (self.quad_program.get_attrib drv "pos".toList w).1 with
  | error e => exact Or.inl ⟨e, rfl⟩
  | ok pos =>
    simp only []
    rw [get_attrib_eq drv _ "uv".toList]
    cases (self.quad_program.get_attrib drv "uv".toList w).1 with
    | error e => exact Or.inl ⟨e, rfl⟩
    | ok uv =>
      simp only []
      rw [get_uniform_eq drv _ "mySampler".toList]
      cases (self.quad_program.get_uniform drv "mySampler".toList w).1 with
      | error e => exact Or.inl ⟨e, rfl⟩
      | ok u_sampler =>
        simp only []
        rw [get_uniform_eq drv _ "mvp".toList]
        cases (self.quad_program.get_uniform drv "mvp".toList w).1 with
        | error e => exact Or.inl ⟨e, rfl⟩
        | ok u_mvp =>
          refine Or.inr ⟨pos, uv, u_sampler, u_mvp, ?_⟩
          simp [emit, fresh, quad_vertex_data, uv_buffer_data, sizeof_GLfloat]

theorem init_quad_cmds (drv : Driver) (proj_view_model : List GLfloat) (self : RayTracer)
    (w : World) :
    ∃ new, (RayTracer.init_quad drv proj_view_model self w).2.cmds = w.cmds ++ new ∧
      new.countP Cmd.isDispatch = 0 := by
  rcases init_quad_cases drv proj_view_model self w with ⟨e, h⟩ | ⟨pos, uv, us, um, h⟩
  · exact ⟨[], by rw [h]; simp, rfl⟩
  · rw [h]
    exact ⟨_, rfl, by simp [Cmd.isDispatch]⟩

theorem init_texture_cmds (self : RayTracer) (w : World) :
    (self.init_texture w).cmds = w.cmds ++
      [.glActiveTexture GL_TEXTURE0,
       .glBindTexture GL_TEXTURE_2D self.texture.texture,
       .glTexParameteri GL_TEXTURE_2D GL_TEXTURE_WRAP_S GL_CLAMP_TO_EDGE,
       .glTexParameteri GL_TEXTURE_2D GL_TEXTURE_WRAP_T GL_CLAMP_TO_EDGE,
       .glTexParameteri GL_TEXTURE_2D GL_TEXTURE_MAG_FILTER GL_LINEAR,
       .glTexParameteri GL_TEXTURE_2D GL_TEXTURE_MIN_FILTER GL_LINEAR,
       .glTexImage2D GL_TEXTURE_2D 0 GL_RGBA16F self.texture_size_x self.texture_size_y 0
          GL_RGBA GL_FLOAT,
       .glBindImageTexture 0 self.texture.texture 0 false 0 GL_WRITE_ONLY GL_RGBA16F] := by
  simp [RayTracer.init_texture, Texture.bindTexture, Texture.getId]

theorem render_cmds (self : RayTracer) (w : World) :
    (self.render w).cmds = w.cmds ++ render_commands self := by
  simp [RayTracer.render, render_commands, Texture.bindTexture, ShaderProgram.useProgram]

theorem destroy_members_cmds (self : RayTracer) (w : World) :
    (self.destroy_members w).cmds = w.cmds ++
      [.glDeleteProgram self.tracer_program.program,
       .glDeleteTextures self.texture.texture,
       .glDeleteProgram self.quad_program.program] := by
  simp [RayTracer.destroy_members, Texture.dtor, ShaderProgram.dtor]

theorem ctor_cmds (drv : Driver) (fs : FileSystem) (proj_view_model : List GLfloat)
    (mem : RayTracer) (w : World) :
    ∃ new, (RayTracer.ctor drv fs proj_view_model mem w).2.cmds = w.cmds ++ new ∧
      barrier_follows_dispatch new = true ∧
      (∀ self, (RayTracer.ctor drv fs proj_view_model mem w).1 = .ok self →
        new.countP Cmd.isDispatch = 1) := by
  unfold RayTracer.ctor
  obtain ⟨n1, h1, c1⟩ := vf_ctor_cmds drv fs "../data/shaders/ray_tracer.v.glsl".toList
    "../data/shaders/ray_tracer.f.glsl".toList w
  generalize VFShaderProgram.ctor drv fs "../data/shaders/ray_tracer.v.glsl".toList
    "../data/shaders/ray_tracer.f.glsl".toList w = r1 at h1 ⊢
  obtain ⟨r1, w1⟩ := r1
  simp only at h1
  cases r1 with
  | error e =>
    exact ⟨n1, h1, barrier_follows_dispatch_of_no_dispatch _ c1, by intro self h; cases h⟩
  | ok quad_program =>
    simp only []
    obtain ⟨n2, h2, c2⟩ := compute_ctor_cmds drv fs "../data/shaders/ray_tracer.c.glsl".toList w1
    generalize ComputeShaderProgram.ctor drv fs "../data/shaders/ray_tracer.c.glsl".toList w1
      = r2 at h2 ⊢
    obtain ⟨r2, w2⟩ := r2
    simp only at h2
    cases r2 with
    | error e =>
      refine ⟨n1 ++ n2 ++ [.glDeleteTextures mem.texture.texture,
        .glDeleteProgram quad_program.program], ?_, ?_, by intro self h; cases h⟩
      · simp [Texture.dtor, ShaderProgram.dtor, h1, h2]
      · apply barrier_follows_dispatch_of_no_dispatch
        simp [c1, c2, Cmd.isDispatch]
    | ok tracer_program =>
      simp only []
      obtain ⟨n3, h3, c3⟩ := init_quad_cmds drv proj_view_model
        { mem with quad_program := quad_program, texture_size_x := 800,
                   texture_size_y := 800, tracer_program := tracer_program } w2
      generalize RayTracer.init_quad drv proj_view_model
        { mem with quad_program := quad_program, texture_size_x := 800,
                   texture_size_y := 800, tracer_program := tracer_program } w2 = r3 at h3 ⊢
      obtain ⟨r3, w3⟩ := r3
      simp only at h3
      cases r3 with
      | error e =>
        refine ⟨n1 ++ n2 ++ n3 ++ [.glDeleteProgram tracer_program.program,
          .glDeleteTextures mem.texture.texture,
          .glDeleteProgram quad_program.program], ?_, ?_, by intro self h; cases h⟩
        · simp [destroy_members_cmds, h1, h2, h3]
        · apply barrier_follows_dispatch_of_no_dispatch
          simp [c1, c2, c3, Cmd.isDispatch]
      | ok self1 =>
        simp only []
        obtain ⟨n5, h5, b5, c5⟩ := trace_cmds drv self1 (self1.init_texture w3)
        generalize RayTracer.trace drv self1 (self1.init_texture w3) = r5 at h5 c5 ⊢
        obtain ⟨r5, w5⟩ := r5
        simp only at h5 c5
        have hq : barrier_follows_dispatch (n1 ++ n2 ++ n3 ++
            [.glActiveTexture GL_TEXTURE0,
             .glBindTexture GL_TEXTURE_2D self1.texture.texture,
             .glTexParameteri GL_TEXTURE_2D GL_TEXTURE_WRAP_S GL_CLAMP_TO_EDGE,
             .glTexParameteri GL_TEXTURE_2D GL_TEXTURE_WRAP_T GL_CLAMP_TO_EDGE,
             .glTexParameteri GL_TEXTURE_2D GL_TEXTURE_MAG_FILTER GL_LINEAR,
             .glTexParameteri GL_TEXTURE_2D GL_TEXTURE_MIN_FILTER GL_LINEAR,
             .glTexImage2D GL_TEXTURE_2D 0 GL_RGBA16F self1.texture_size_x
                self1.texture_size_y 0 GL_RGBA GL_FLOAT,
             .glBindImageTexture 0 self1.texture.texture 0 false 0 GL_WRITE_ONLY
                GL_RGBA16F]) = true := by
          apply barrier_follows_dispatch_of_no_dispatch
          simp [c1, c2, c3, Cmd.isDispatch]
        cases r5 with
        | error e =>
          refine ⟨(n1 ++ n2 ++ n3 ++
            [.glActiveTexture GL_TEXTURE0,
             .glBindTexture GL_TEXTURE_2D self1.texture.texture,
             .glTexParameteri GL_TEXTURE_2D GL_TEXTURE_WRAP_S GL_CLAMP_TO_EDGE,
             .glTexParameteri GL_TEXTURE_2D GL_TEXTURE_WRAP_T GL_CLAMP_TO_EDGE,
             .glTexParameteri GL_TEXTURE_2D GL_TEXTURE_MAG_FILTER GL_LINEAR,
             .glTexParameteri GL_TEXTURE_2D GL_TEXTURE_MIN_FILTER GL_LINEAR,
             .glTexImage2D GL_TEXTURE_2D 0 GL_RGBA16F self1.texture_size_x
                self1.texture_size_y 0 GL_RGBA GL_FLOAT,
             .glBindImageTexture 0 self1.texture.texture 0 false 0 GL_WRITE_ONLY
                GL_RGBA16F]) ++ (n5 ++ [.glDeleteProgram self1.tracer_program.program,
             .glDeleteTextures self1.texture.texture,
             .glDeleteProgram self1.quad_program.program]), ?_, ?_,
            by intro self h; cases h⟩
          · simp [destroy_members_cmds, init_texture_cmds, h1, h2, h3, h5]
          · apply barrier_follows_dispatch_append _ _ hq
            apply barrier_follows_dispatch_append _ _ b5
            rfl
        | ok u =>
          refine ⟨(n1 ++ n2 ++ n3 ++
            [.glActiveTexture GL_TEXTURE0,
             .glBindTexture GL_TEXTURE_2D self1.texture.texture,
             .glTexParameteri GL_TEXTURE_2D GL_TEXTURE_WRAP_S GL_CLAMP_TO_EDGE,
             .glTexParameteri GL_TEXTURE_2D GL_TEXTURE_WRAP_T GL_CLAMP_TO_EDGE,
             .glTexParameteri GL_TEXTURE_2D GL_TEXTURE_MAG_FILTER GL_LINEAR,
             .glTexParameteri GL_TEXTURE_2D GL_TEXTURE_MIN_FILTER GL_LINEAR,
             .glTexImage2D GL_TEXTURE_2D 0 GL_RGBA16F self1.texture_size_x
                self1.texture_size_y 0 GL_RGBA GL_FLOAT,
             .glBindImageTexture 0 self1.texture.texture 0 false 0 GL_WRITE_ONLY
                GL_RGBA16F]) ++ n5, ?_, ?_, ?_⟩
          · simp [init_texture_cmds, h1, h2, h3, h5]
          · exact barrier_follows_dispatch_append _ _ hq b5
          · intro self _
            have := c5 rfl
            simp [c1, c2, c3, this, Cmd.isDispatch]

theorem run_calls_cmds (drv : Driver) (self : RayTracer) (calls : List Call) :
    ∀ w : World, ∃ new, (run_calls drv self calls w).cmds = w.cmds ++ new ∧
      barrier_follows_dispatch new = true := by
  induction calls with
  | nil => intro w; exact ⟨[], by simp [run_calls], rfl⟩
  | cons c rest ih =>
    intro w
    cases c with
    | render =>
      obtain ⟨n, hn, bn⟩ := ih (self.render w)
      refine ⟨render_commands self ++ n, ?_, barrier_follows_dispatch_append _ _ ?_ bn⟩
      · simp only [run_calls, hn, render_cmds, List.append_assoc]
      · simp [render_commands, barrier_follows_dispatch, Cmd.isDispatch]
    | trace =>
      obtain ⟨n, hn, bn⟩ := ih (self.trace drv w).2
      obtain ⟨t, ht, bt, _⟩ := trace_cmds drv self w
      refine ⟨t ++ n, ?_, barrier_follows_dispatch_append _ _ bt bn⟩
      simp only [run_calls, hn, ht, List.append_assoc]

theorem run_renders_cmds (self : RayTracer) (drv : Driver) (n : Nat) :
    ∀ w : World, ∃ new, (run_calls drv self (List.replicate n Call.render) w).cmds
        = w.cmds ++ new ∧
      new.countP Cmd.isDispatch = 0 ∧ new.countP Cmd.writesTexture = 0 := by
  induction n with
  | zero => intro w; exact ⟨[], by simp [run_calls], rfl, rfl⟩
  | succ k ih =>
    intro w
    obtain ⟨m, hm, d, t⟩ := ih (self.render w)
    refine ⟨render_commands self ++ m, ?_, ?_, ?_⟩
    · simp only [List.replicate_succ, run_calls, hm, render_cmds, List.append_assoc]
    · simp [render_commands, d, Cmd.isDispatch]
    · simp [render_commands, t, Cmd.writesTexture]

theorem barrier_follows_dispatch_index (l : List Cmd)
    (h : barrier_follows_dispatch l = true) :
    ∀ (i : Nat) (c : Cmd), l[i]? = some c → c.isDispatch = true →
      ∃ b, l[i + 1]? = some b ∧ b.isBarrier = true := by
  induction l with
  | nil => intro i c hi; simp at hi
  | cons a t ih =>
    intro i c hi hc
    cases t with
    | nil =>
      cases i with
      | zero =>
        simp only [List.getElem?_cons_zero, Option.some.injEq] at hi
        subst hi
        simp [barrier_follows_dispatch, hc] at h
      | succ j => simp at hi
    | cons d r =>
      simp only [barrier_follows_dispatch, Bool.and_eq_true, Bool.or_eq_true,
        Bool.not_eq_true'] at h
      cases i with
      | zero =>
        simp only [List.getElem?_cons_zero, Option.some.injEq] at hi
        subst hi
        rcases h.1 with h0 | h0
        · rw [hc] at h0; cases h0
        · exact ⟨d, by simp, h0⟩
      | succ j =>
        simp only [List.getElem?_cons_succ] at hi
        obtain ⟨b, hb, hbb⟩ := ih h.2 j c hi hc
        exact ⟨b, by simpa using hb, hbb⟩

/-! ## The orchestrator -/

/-- C1: when construction of the `RayTracer` succeeds, the commands of
construction followed by `n` calls of `render()` contain exactly one
`glDispatchCompute`; it is among the commands of the constructor; the commands
added by the `render()` calls contain no dispatch and no command that writes a
texture. -/
theorem compute_dispatch_once_in_constructor (drv : Driver) (fs : FileSystem)
    (proj_view_model : List GLfloat) (mem self : RayTracer)
    (h : (RayTracer.ctor drv fs proj_view_model mem World.start).1 = .ok self) (n : Nat) :
    (program_commands drv fs proj_view_model mem (List.replicate n Call.render)).countP
        Cmd.isDispatch = 1 ∧
    (RayTracer.ctor drv fs proj_view_model mem World.start).2.cmds.countP Cmd.isDispatch = 1 ∧
    (∃ new, program_commands drv fs proj_view_model mem (List.replicate n Call.render)
        = (RayTracer.ctor drv fs proj_view_model mem World.start).2.cmds ++ new ∧
      new.countP Cmd.isDispatch = 0 ∧ new.countP Cmd.writesTexture = 0) ∧
    (∀ w : World, (self.render w).cmds = w.cmds ++ render_commands self ∧
      (render_commands self).countP Cmd.isDispatch = 0 ∧
      (render_commands self).countP Cmd.writesTexture = 0) := by
  obtain ⟨new, hnew, _, hcount⟩ := ctor_cmds drv fs proj_view_model mem World.start
  have hc := hcount self h
  have hctor : (RayTracer.ctor drv fs proj_view_model mem World.start).2.cmds.countP
      Cmd.isDispatch = 1 := by
    rw [hnew]; simpa [World.start] using hc
  obtain ⟨r, hr, hd, ht⟩ := run_renders_cmds self drv n
    (RayTracer.ctor drv fs proj_view_model mem World.start).2
  have hprog : program_commands drv fs proj_view_model mem (List.replicate n Call.render)
      = (RayTracer.ctor drv fs proj_view_model mem World.start).2.cmds ++ r := by
    unfold program_commands
    rw [← hr]
    generalize RayTracer.ctor drv fs proj_view_model mem World.start = res at h ⊢
    obtain ⟨r1, w1⟩ := res
    simp only at h
    subst h
    rfl
  refine ⟨?_, hctor, ⟨r, hprog, hd, ht⟩, ?_⟩
  · rw [hprog, List.countP_append, hctor, hd]
  · intro w
    exact ⟨render_cmds self w, by simp [render_commands, Cmd.isDispatch],
      by simp [render_commands, Cmd.writesTexture]⟩

/-- Witness of C1: with the accepting driver construction succeeds, and after 100
calls of `render()` the command sequence holds one dispatch. -/
theorem compute_dispatch_once_in_constructor_witness :
    (program_commands accepting_driver one_line_files [] (storage 7)
        (List.replicate 100 Call.render)).countP Cmd.isDispatch = 1 :=
  (compute_dispatch_once_in_constructor accepting_driver one_line_files [] (storage 7)
    (constructed 7) (by rfl) 100).1

/-- C5: in the commands of any run (construction, then any sequence of
`render()` and `trace()` calls), the command right after a `glDispatchCompute`
is a `glMemoryBarrier`. -/
theorem dispatch_directly_followed_by_barrier (drv : Driver) (fs : FileSystem)
    (proj_view_model : List GLfloat) (mem : RayTracer) (calls : List Call) (i : Nat) (c : Cmd)
    (hi : (program_commands drv fs proj_view_model mem calls)[i]? = some c)
    (hc : c.isDispatch = true) :
    ∃ b, (program_commands drv fs proj_view_model mem calls)[i + 1]? = some b ∧
      b.isBarrier = true := by
  have hb : barrier_follows_dispatch (program_commands drv fs proj_view_model mem calls)
      = true := by
    unfold program_commands
    obtain ⟨new, hnew, bnew, _⟩ := ctor_cmds drv fs proj_view_model mem World.start
    generalize RayTracer.ctor drv fs proj_view_model mem World.start = res at hnew ⊢
    obtain ⟨r1, w1⟩ := res
    simp only [World.start, List.nil_append] at hnew
    cases r1 with
    | error e => simp only []; rw [hnew]; exact bnew
    | ok self =>
      simp only []
      obtain ⟨m, hm, bm⟩ := run_calls_cmds drv self calls w1
      rw [hm, hnew]
      exact barrier_follows_dispatch_append _ _ bnew bm
  exact barrier_follows_dispatch_index _ hb i c hi hc

/-- Witness of C5: in the run that constructs, renders, traces again and renders,
command 42 is the constructor's dispatch and command 43 is a barrier. -/
theorem dispatch_directly_followed_by_barrier_witness :
    ∃ b, (program_commands accepting_driver one_line_files [] (storage 7)
        [Call.render, Call.trace, Call.render])[42 + 1]? = some b ∧ b.isBarrier = true :=
  dispatch_directly_followed_by_barrier accepting_driver one_line_files [] (storage 7)
    [Call.render, Call.trace, Call.render] 42 (.glDispatchCompute 800 800 1) (by rfl) rfl

/-- C10: when `init_quad` succeeds it issues, under the vertex array it stores in
`quad_vao`, the upload of the positions (-1,-1), (-1,1), (1,-1), (1,1) and then
of the UVs (0,0), (0,1), (1,0), (1,1), each as two floats per vertex from offset
0; every UV component is the position component plus one, halved; and every
`render()` binds that vertex array and issues one draw, a triangle strip of 4
vertices from index 0. -/
theorem quad_geometry_is_fixed (drv : Driver) (proj_view_model : List GLfloat)
    (self self1 : RayTracer) (w : World)
    (h : (RayTracer.init_quad drv proj_view_model self w).1 = .ok self1) :
    (∃ pos uv : GLuint, (RayTracer.init_quad drv proj_view_model self w).2.cmds = w.cmds ++
      [.glGenVertexArrays self1.quad_vao,
       .glBindVertexArray self1.quad_vao,
       .glGenBuffers self1.quad_vbo,
       .glBindBuffer GL_ARRAY_BUFFER self1.quad_vbo,
       .glBufferData GL_ARRAY_BUFFER 32 [-1, -1, -1, 1, 1, -1, 1, 1] GL_STATIC_DRAW,
       .glVertexAttribPointer pos 2 GL_FLOAT false 8 0,
       .glEnableVertexAttribArray pos,
       .glGenBuffers self1.quad_uvb,
       .glBindBuffer GL_ARRAY_BUFFER self1.quad_uvb,
       .glBufferData GL_ARRAY_BUFFER 32 [0, 0, 0, 1, 1, 0, 1, 1] GL_STATIC_DRAW,
       .glVertexAttribPointer uv 2 GL_FLOAT false 8 0,
       .glEnableVertexAttribArray uv]) ∧
    quad_vertex_data = [-1, -1, -1, 1, 1, -1, 1, 1] ∧
    uv_buffer_data = [0, 0, 0, 1, 1, 0, 1, 1] ∧
    uv_buffer_data = quad_vertex_data.map (fun p => (p + 1) / 2) ∧
    (∀ w2 : World, ∃ pre post, (self1.render w2).cmds = w2.cmds ++ pre ++
        [.glBindVertexArray self1.quad_vao, .glDrawArrays GL_TRIANGLE_STRIP 0 4] ++ post ∧
      pre.countP Cmd.isDraw = 0 ∧ post.countP Cmd.isDraw = 0) := by
  refine ⟨?_, rfl, rfl, ?_, ?_⟩
  · rcases init_quad_cases drv proj_view_model self w with ⟨e, he⟩ | ⟨pos, uv, us, um, hok⟩
    · rw [he] at h; cases h
    · rw [hok] at h ⊢
      simp only [Except.ok.injEq] at h
      subst h
      exact ⟨toGLuint pos, toGLuint uv, rfl⟩
  · simp only [uv_buffer_data, quad_vertex_data, List.map_cons, List.map_nil]
    norm_num
  · intro w2
    refine ⟨[.glClearColor 0 0 0 1,
       .glClear (GL_DEPTH_BUFFER_BIT ||| GL_COLOR_BUFFER_BIT),
       .glUseProgram self1.quad_program.program,
       .glUniformMatrix4fv (toGLint self1.uniform_quad_mvp) 1 false self1.quad_mvp,
       .glActiveTexture GL_TEXTURE0,
       .glBindTexture GL_TEXTURE_2D self1.texture.texture,
       .glUniform1i (toGLint self1.uniform_quad_sampler) 0], [.glBindVertexArray 0], ?_, ?_, ?_⟩
    · rw [render_cmds]; simp [render_commands]
    · simp [Cmd.isDraw]
    · simp [Cmd.isDraw]

/-- Witness of C10: with the accepting driver `init_quad` succeeds from the start
state and uploads the two fixed arrays under vertex array 1. -/
theorem quad_geometry_is_fixed_witness :
    ∃ pos uv : GLuint, (RayTracer.init_quad accepting_driver [] (storage 0) World.start).2.cmds
      = World.start.cmds ++
      [.glGenVertexArrays 1,
       .glBindVertexArray 1,
       .glGenBuffers 2,
       .glBindBuffer GL_ARRAY_BUFFER 2,
       .glBufferData GL_ARRAY_BUFFER 32 [-1, -1, -1, 1, 1, -1, 1, 1] GL_STATIC_DRAW,
       .glVertexAttribPointer pos 2 GL_FLOAT false 8 0,
       .glEnableVertexAttribArray pos,
       .glGenBuffers 3,
       .glBindBuffer GL_ARRAY_BUFFER 3,
       .glBufferData GL_ARRAY_BUFFER 32 [0, 0, 0, 1, 1, 0, 1, 1] GL_STATIC_DRAW,
       .glVertexAttribPointer uv 2 GL_FLOAT false 8 0,
       .glEnableVertexAttribArray uv] :=
  (quad_geometry_is_fixed accepting_driver [] (storage 0)
    { storage 0 with quad_vao := 1, quad_vbo := 2, quad_uvb := 3
                     uniform_quad_sampler := 2, uniform_quad_mvp := 3 }
    World.start (by rfl)).1

/-- C6 on the code: the only memory barrier of a run is the one `trace()` issues,
its bit set is `GL_SHADER_IMAGE_ACCESS_BARRIER_BIT` alone, and that set has no
bit in common with `GL_TEXTURE_FETCH_BARRIER_BIT`, the bit that orders texture
fetches; the draw of `render()` that follows reads the texture through texture
unit 0 and a sampler uniform. -/
theorem trace_barrier_lacks_texture_fetch_bit :
    (program_commands accepting_driver one_line_files [] (storage 7) [Call.render]).filter
        Cmd.isBarrier = [.glMemoryBarrier GL_SHADER_IMAGE_ACCESS_BARRIER_BIT] ∧
    GL_SHADER_IMAGE_ACCESS_BARRIER_BIT &&& GL_TEXTURE_FETCH_BARRIER_BIT = 0 ∧
    (program_commands accepting_driver one_line_files [] (storage 7) [Call.render]).drop 42
      = [.glDispatchCompute 800 800 1,
         .glMemoryBarrier GL_SHADER_IMAGE_ACCESS_BARRIER_BIT]
        ++ render_commands (constructed 7) ∧
    .glBindTexture GL_TEXTURE_2D 7 ∈ render_commands (constructed 7) ∧
    .glUniform1i 2 0 ∈ render_commands (constructed 7) := by
  refine ⟨by decide, by decide, by rfl, by simp [render_commands, constructed, storage],
    by simp [render_commands, constructed, storage, toGLint]⟩

/-- C7 on the code: no command of a whole life of the orchestrator creates a
texture; the handle that is bound, given storage, attached to image unit 0 and
deleted at teardown is the value found in the object's storage (7 when the
storage held 7, 9 when it held 9). -/
theorem texture_handle_is_never_created :
    (lifetime_commands accepting_driver one_line_files [] (storage 7) []).countP
        Cmd.isTextureCreation = 0 ∧
    ((lifetime_commands accepting_driver one_line_files [] (storage 7) []).drop 28).take 8
      = [.glActiveTexture GL_TEXTURE0,
         .glBindTexture GL_TEXTURE_2D 7,
         .glTexParameteri GL_TEXTURE_2D GL_TEXTURE_WRAP_S GL_CLAMP_TO_EDGE,
         .glTexParameteri GL_TEXTURE_2D GL_TEXTURE_WRAP_T GL_CLAMP_TO_EDGE,
         .glTexParameteri GL_TEXTURE_2D GL_TEXTURE_MAG_FILTER GL_LINEAR,
         .glTexParameteri GL_TEXTURE_2D GL_TEXTURE_MIN_FILTER GL_LINEAR,
         .glTexImage2D GL_TEXTURE_2D 0 GL_RGBA16F 800 800 0 GL_RGBA GL_FLOAT,
         .glBindImageTexture 0 7 0 false 0 GL_WRITE_ONLY GL_RGBA16F] ∧
    (lifetime_commands accepting_driver one_line_files [] (storage 7) []).drop 44
      = [.glDeleteBuffers 7, .glDeleteBuffers 8, .glDeleteVertexArrays 6,
         .glDeleteProgram 4, .glDeleteTextures 7, .glDeleteProgram 1] ∧
    ((lifetime_commands accepting_driver one_line_files [] (storage 9) []).drop 29).take 1
      = [.glBindTexture GL_TEXTURE_2D 9] := by
  refine ⟨by decide, by rfl, by rfl, by rfl⟩

end OglRayTracer
